import Mathlib

/-!
# Verification of the danmaku-to-summary generation orchestrator

A shallow embedding, in Lean 4, of the Python generation orchestrator of
this repository (`src/scripts/ai_comic_generator.py`,
`src/scripts/tuzi_chat_completions.py`), together with theorems settling
the behavioural claims about it.

Modelling conventions:
* The filesystem is a finite association list of `(path, content)` pairs;
  `os.path.exists` becomes membership of the path, reading a file returns
  the stored content.
* Network calls are oracles: each provider attempt is numbered and an
  environment function gives the outcome of the n-th attempt.  Exceptions
  raised by library calls are outcome constructors, never Lean exceptions.
* Every orchestrator function additionally returns the list of externally
  visible events (provider calls, polls, downloads) it performed, in
  order, so that claims about calls that must or must not happen are
  statements about that trace.
* Python string primitives used by the source (`str.strip`, `in`,
  `str.replace`, `os.path` helpers, `str(counter)`) are implemented over
  `List Char`, faithful to their Python semantics on the slash-separated
  relative/absolute paths the source manipulates.
-/

/-! ## Python string primitives -/

/-- Python `str.strip()` on a character list: remove leading and trailing
whitespace. -/
def stripChars (cs : List Char) : List Char :=
  ((cs.dropWhile Char.isWhitespace).reverse.dropWhile Char.isWhitespace).reverse

/-- Python `str.strip()`. -/
def pyStrip (s : String) : String :=
  String.mk (stripChars s.data)

/-- Python `pat in s` (substring containment) on character lists. -/
def listContainsSub (s pat : List Char) : Bool :=
  match s with
  | [] => pat.isPrefixOf ([] : List Char)
  | _ :: rest => pat.isPrefixOf s || listContainsSub rest pat

/-- Python `pat in s` (substring containment). -/
def strContainsSub (s pat : String) : Bool :=
  listContainsSub s.data pat.data

/-- Python `s.replace(pat, rep)` on character lists (replace every
non-overlapping occurrence, scanning left to right), with explicit fuel;
the fuel is the length of the scanned list, which suffices because every
step consumes at least one character of it. -/
def replaceAllAux (pat rep : List Char) : Nat → List Char → List Char
  | 0, _ => []
  | _ + 1, [] => []
  | fuel + 1, c :: rest =>
    if pat ≠ [] ∧ pat.isPrefixOf (c :: rest) then
      rep ++ replaceAllAux pat rep fuel ((c :: rest).drop pat.length)
    else
      c :: replaceAllAux pat rep fuel rest

/-- Python `s.replace(pat, rep)`. -/
def strReplace (s pat rep : String) : String :=
  String.mk (replaceAllAux pat.data rep.data s.data.length s.data)

/-- Python `s.replace(pat, "")`. -/
def removeAll (s pat : String) : String :=
  strReplace s pat ""

/-! ## Python `str(n)`: decimal representation of a natural number

`generate_unique_filename` builds `f"{name}_{counter}{ext}"`; `str` renders
the counter in decimal.  The fuel of the auxiliary function is the number
itself, which bounds the number of divisions by ten. -/

def decCharsAux : Nat → Nat → List Char
  | 0, _ => []
  | fuel + 1, n =>
    if n = 0 then []
    else decCharsAux fuel (n / 10) ++ [Nat.digitChar (n % 10)]

/-- Python `str(n)` for a natural number. -/
def natDecimal (n : Nat) : String :=
  if n = 0 then "0" else String.mk (decCharsAux n n)

/-! ## `os.path` helpers

The source manipulates slash-separated paths through `os.path.dirname`,
`os.path.basename`, `os.path.splitext`, `os.path.join` and
`os.path.isabs`.  These are implemented below for such paths. -/

/-- Split a character list at every occurrence of the separator. -/
def splitOnCharAux (sep : Char) : List Char → List Char → List (List Char)
  | [], acc => [acc.reverse]
  | c :: rest, acc =>
    if c = sep then acc.reverse :: splitOnCharAux sep rest []
    else splitOnCharAux sep rest (c :: acc)

def splitOnChar (sep : Char) (cs : List Char) : List (List Char) :=
  splitOnCharAux sep cs []

/-- Does `"base64,"` occur with at least one character after it?  (The
`base64,(.+)` pattern of `save_comic_result`.) -/
def hasBase64Capture : List Char → Bool
  | [] => false
  | c :: rest =>
    ("base64,".data.isPrefixOf (c :: rest) && rest.length + 1 > "base64,".data.length)
      || hasBase64Capture rest

/-- `os.path.dirname`: everything before the last slash, with trailing
slashes stripped unless the head is all slashes (so `dirname "/x" = "/"`,
`dirname "a/b" = "a"`, `dirname "x" = ""`), as in Python. -/
def dirname (p : String) : String :=
  if ¬ p.data.contains '/' then ""
  else
    let head := (p.data.reverse.dropWhile (fun c => c ≠ '/')).reverse
    if head.all (fun c => c = '/') then String.mk head
    else String.mk ((head.reverse.dropWhile (fun c => c = '/')).reverse)

/-- `os.path.basename`: everything after the last slash. -/
def basename (p : String) : String :=
  String.mk ((p.data.reverse.takeWhile (fun c => c ≠ '/')).reverse)

/-- `os.path.isabs`: the path starts with a slash. -/
def isAbs (p : String) : Bool :=
  p.data.head? == some '/'

/-- `os.path.join` for slash-separated paths: an absolute right part wins;
otherwise a separator is inserted unless the left part is empty or already
ends with one, as in Python. -/
def pjoin (a b : String) : String :=
  if isAbs b then b
  else if a = "" then b
  else if a.data.getLast? == some '/' then a ++ b
  else a ++ "/" ++ b

/-- Index (from the right) of the last dot of a character list, as the
length of the part before it; `none` when no dot occurs. -/
def lastDotSplit (cs : List Char) : Option (List Char × List Char) :=
  match cs with
  | [] => none
  | c :: rest =>
    match lastDotSplit rest with
    | some (a, b) => some (c :: a, b)
    | none => if c = '.' then some ([], c :: rest) else none

/-- `os.path.splitext` restricted to the basename part: returns
`(root, ext)` with the dot kept on the extension; a last dot preceded
only by dots (hidden files such as `.bashrc`) starts no extension, as in
Python. -/
def splitExtBase (b : String) : String × String :=
  match lastDotSplit b.data with
  | some (a, e) =>
    if a.all (fun c => c = '.') then (b, "") else (String.mk a, String.mk e)
  | none => (b, "")

/-- `os.path.splitext` on a whole path: the extension is looked up in the
final path component only, and the root is the path with the extension
suffix removed. -/
def splitExt (p : String) : String × String :=
  let e := (splitExtBase (basename p)).2
  (String.mk (p.data.take (p.data.length - e.data.length)), e)

/-! ## Filesystem model -/

/-- The filesystem: association list of `(path, content)`.  Binary files
(images) carry an irrelevant content. -/
def FS := List (String × String)

/-- `os.path.exists`. -/
def fsExists (fs : FS) (p : String) : Bool :=
  fs.any (fun e => e.1 == p)

/-- Read the content of an existing file (empty for a missing one; the
source wraps reads in try/except and the claims only read existing
files). -/
def fsRead (fs : FS) (p : String) : String :=
  (((fs : List (String × String)).find? (fun e => e.1 == p)).map (fun e => e.2)).getD ""

/-! ## `generate_unique_filename` (ai_comic_generator.py lines 129-143)

```python
def generate_unique_filename(base_path: str) -> str:
    if not os.path.exists(base_path):
        return base_path
    dir_name = os.path.dirname(base_path)
    ext = os.path.splitext(base_path)[1]
    name_without_ext = os.path.splitext(os.path.basename(base_path))[0]
    counter = 1
    while True:
        new_path = os.path.join(dir_name, f"{name_without_ext}_{counter}{ext}")
        if not os.path.exists(new_path):
            return new_path
        counter += 1
```

The unbounded `while True` is embedded with explicit fuel; the fuel
`fs.length + 1` is proved adequate below (`exists_free_candidate`): the
candidate names are pairwise distinct, so they cannot all collide with the
finitely many existing files. -/

/-- The candidate path tried for counter value `k`. -/
def gufCandidate (base_path : String) (k : Nat) : String :=
  pjoin (dirname base_path)
    ((splitExtBase (basename base_path)).1 ++ "_" ++ natDecimal k ++ (splitExt base_path).2)

/-- The `while True` loop of `generate_unique_filename`. -/
def gufLoop (fs : FS) (base_path : String) : Nat → Nat → String
  | _, 0 => gufCandidate base_path 0
  | counter, fuel + 1 =>
    if fsExists fs (gufCandidate base_path counter) then
      gufLoop fs base_path (counter + 1) fuel
    else
      gufCandidate base_path counter

def generate_unique_filename (fs : FS) (base_path : String) : String :=
  if ¬ fsExists fs base_path then base_path
  else gufLoop fs base_path 1 (fs.length + 1)

/-! ## `save_comic_result` (ai_comic_generator.py lines 1087-1134)

Branches on the shape of `comic_data`: an existing file path is copied, an
`http(s)` URL is downloaded, a `data:image` base64 payload is decoded,
anything else is written out as text.  Every branch writes to the unique
path computed by `generate_unique_filename`.  Download and decode failures
raise (propagated by the outer `except`): they are modelled as `none`. -/

/-- Outcome of `requests.get` on a URL: `none` for a raised exception,
`some code` for a response with that status code. -/
def DownloadOracle := String → Option Nat

/-- `save_comic_result`: returns the path actually written, `none` when
the function raises (failed download) or falls through the base64 branch
without a match. -/
def save_comic_result (fs : FS) (download : DownloadOracle) (output_path : String)
    (comic_data : String) : Option String :=
  let unique_path := generate_unique_filename fs output_path
  if fsExists fs comic_data then
    some unique_path
  else if comic_data.startsWith "http://" || comic_data.startsWith "https://" then
    match download comic_data with
    | some 200 => some unique_path
    | _ => none
  else if comic_data.length > 100 && strContainsSub comic_data "data:image" then
    if hasBase64Capture comic_data.data then some unique_path else none
  else
    some unique_path

/-- The right part of the candidate name for counter value `k`. -/
def gufRight (base_path : String) (k : Nat) : String :=
  (splitExtBase (basename base_path)).1 ++ "_" ++ natDecimal k ++ (splitExt base_path).2

/-! ## Externally visible events

Each orchestrator function also returns the ordered list of provider
calls, polls and downloads it performed. -/

inductive Ev where
  | node : Ev
  | gemini : Nat → Ev
  | tuziText : Nat → Ev
  | googleImg : Ev
  | imgReq : String → Ev
  | poll : Ev
  | download : String → Ev
  deriving DecidableEq, Repr

/-- Events of the text-script providers (node subprocess, Gemini, tuZi
chat completion). -/
def Ev.isTextProvider : Ev → Bool
  | .node => true
  | .gemini _ => true
  | .tuziText _ => true
  | _ => false

/-- Events of the image-generation side (Google image API, tuZi image
requests, async polls, artifact downloads). -/
def Ev.isImageGen : Ev → Bool
  | .googleImg => true
  | .imgReq _ => true
  | .poll => true
  | .download _ => true
  | _ => false

/-! ## Text script generation
(`ai_comic_generator.py`, `is_gemini_error` lines 423-427 and
`generate_comic_content_with_ai` lines 429-627) -/

/-- `is_gemini_error`: the provider-error marker check.
```python
def is_gemini_error(text: str) -> bool:
    if not text:
        return False
    return 'Gemini Error' in text
``` -/

def is_gemini_error (text : String) : Bool :=
  if text = "" then false else strContainsSub text "Gemini Error"

/-- Outcome of one Gemini `generate_content` attempt: a raised exception
(transport/SSL/anything), a response with falsy/empty text, or a response
whose non-empty text is `s`. -/
inductive GeminiOutcome where
  | error : GeminiOutcome
  | empty : GeminiOutcome
  | content : String → GeminiOutcome
  deriving DecidableEq

/-- Outcome of one tuZi text attempt: an exception escaping
`call_tuzi_chat_completions`, or its returned value (`none` for failed or
empty responses, `some s` for a stripped non-empty content). -/
inductive TuziTextOutcome where
  | exn : TuziTextOutcome
  | ret : Option String → TuziTextOutcome
  deriving DecidableEq

/-- Environment of `generate_comic_content_with_ai`: availability flags
read from disk/config, plus one oracle per provider giving the outcome of
its numbered attempt. -/
structure TextEnv where
  /-- `shutil.which('node')` found a binary and `ai_text_generator.js`
  exists. -/
  nodeAvailable : Bool
  /-- `subprocess.run` outcome: `none` for a raised exception (e.g.
  timeout), otherwise `(returncode, stdout)`. -/
  nodeResult : Option (Nat × String)
  /-- `from google import genai` succeeds. -/
  geminiImportOk : Bool
  /-- `get_gemini_api_key()` is non-empty. -/
  geminiKeyConfigured : Bool
  /-- Outcome of the n-th Gemini attempt. -/
  gemini : Nat → GeminiOutcome
  /-- `is_tuzi_configured()`. -/
  tuziConfigured : Bool
  /-- Outcome of the n-th tuZi text attempt. -/
  tuziText : Nat → TuziTextOutcome

/-- The node `ai_text_generator.js` reuse stage (lines 437-465): on a
zero exit with non-empty stdout whose stripped text is non-empty and free
of the error marker, return it as generated; otherwise fall through. -/
def nodeStage (env : TextEnv) : Option (String × Bool) × List Ev :=
  if env.nodeAvailable then
    match env.nodeResult with
    | some (rc, out) =>
      if rc = 0 ∧ out ≠ "" then
        let text := pyStrip out
        if text ≠ "" ∧ is_gemini_error text = false then (some (text, true), [.node])
        else (none, [.node])
      else (none, [.node])
    | none => (none, [.node])
  else (none, [])

/-- The Gemini retry loop (lines 467-552), over the list of remaining
attempt indices (`range(3)`). `some r` is a `return r` of the python
function; `none` is the fall-through to the tuZi backup (`break`, import
failure, or retries exhausted). -/
def geminiLoop (env : TextEnv) (highlight_content : String) :
    List Nat → Option (String × Bool) × List Ev
  | [] => (none, [])
  | a :: rest =>
    if ¬ env.geminiImportOk then (none, [])
    else if ¬ env.geminiKeyConfigured then (some (highlight_content, false), [])
    else
      match env.gemini a with
      | .content s =>
        let comic_content := pyStrip s
        if is_gemini_error comic_content then
          if rest = [] then (none, [.gemini a])
          else
            let next := geminiLoop env highlight_content rest
            (next.1, .gemini a :: next.2)
        else (some (comic_content, true), [.gemini a])
      | .empty => (some (highlight_content, false), [.gemini a])
      | .error =>
        if rest = [] then (none, [.gemini a])
        else
          let next := geminiLoop env highlight_content rest
          (next.1, .gemini a :: next.2)

/-- The tuZi backup retry loop (lines 554-627), over the list of
remaining attempt indices (`range(3)`). -/
def tuziLoop (env : TextEnv) (highlight_content : String) :
    List Nat → (String × Bool) × List Ev
  | [] => ((highlight_content, false), [])
  | a :: rest =>
    match env.tuziText a with
    | .exn =>
      if rest = [] then ((highlight_content, false), [.tuziText a])
      else
        let next := tuziLoop env highlight_content rest
        (next.1, .tuziText a :: next.2)
    | .ret r =>
      if ¬ env.tuziConfigured then ((highlight_content, false), [])
      else
        match r with
        | some s =>
          if s ≠ "" then
            if is_gemini_error s then
              if rest = [] then ((highlight_content, false), [.tuziText a])
              else
                let next := tuziLoop env highlight_content rest
                (next.1, .tuziText a :: next.2)
            else ((s, true), [.tuziText a])
          else
            if rest = [] then ((highlight_content, false), [.tuziText a])
            else
              let next := tuziLoop env highlight_content rest
              (next.1, .tuziText a :: next.2)
        | none =>
          if rest = [] then ((highlight_content, false), [.tuziText a])
          else
            let next := tuziLoop env highlight_content rest
            (next.1, .tuziText a :: next.2)

/-- `generate_comic_content_with_ai`: node reuse stage, then the Gemini
loop, then the tuZi backup loop, returning `(comic_content,
is_generated)` and the trace of provider calls. -/
def generate_comic_content_with_ai (env : TextEnv) (highlight_content : String) :
    (String × Bool) × List Ev :=
  match (nodeStage env).1 with
  | some r => (r, (nodeStage env).2)
  | none =>
    match (geminiLoop env highlight_content [0, 1, 2]).1 with
    | some r => (r, (nodeStage env).2 ++ (geminiLoop env highlight_content [0, 1, 2]).2)
    | none =>
      ((tuziLoop env highlight_content [0, 1, 2]).1,
        (nodeStage env).2 ++ (geminiLoop env highlight_content [0, 1, 2]).2
          ++ (tuziLoop env highlight_content [0, 1, 2]).2)

/-- Oracle environment for the `text_success_never_error_marker` witness:
the first Gemini attempt answers with clean content. -/
def envC8 : TextEnv where
  nodeAvailable := false
  nodeResult := none
  geminiImportOk := true
  geminiKeyConfigured := true
  gemini := fun _ => .content "漫画分镜脚本"
  tuziConfigured := true
  tuziText := fun _ => .ret none

/-- One tuZi text attempt fails: it raised, returned nothing, or returned
empty or marker-carrying content. -/
def tuziAttemptFails (env : TextEnv) (a : Nat) : Prop :=
  match env.tuziText a with
  | .exn => True
  | .ret none => True
  | .ret (some s) => s = "" ∨ is_gemini_error s = true

/-- One Gemini attempt fails: it raised, came back empty, or its content
carries the error marker. -/
def geminiAttemptFails (env : TextEnv) (a : Nat) : Prop :=
  match env.gemini a with
  | .error => True
  | .empty => True
  | .content s => is_gemini_error (pyStrip s) = true

/-- Oracle environment for the `all_providers_exhausted_returns_original`
witness: node unavailable, every Gemini attempt raises, every tuZi
attempt returns nothing. -/
def envC7 : TextEnv where
  nodeAvailable := false
  nodeResult := none
  geminiImportOk := true
  geminiKeyConfigured := true
  gemini := fun _ => .error
  tuziConfigured := true
  tuziText := fun _ => .ret none

/-- Oracle environment refuting claim C4: the first Gemini attempt
returns an empty response while the tuZi backup would succeed. -/
def envC4 : TextEnv where
  nodeAvailable := false
  nodeResult := none
  geminiImportOk := true
  geminiKeyConfigured := true
  gemini := fun _ => .empty
  tuziConfigured := true
  tuziText := fun _ => .ret (some "Panel 1: A laughs")

/-! ## tuZi image generation
(`tuzi_chat_completions.py`, `call_tuzi_chat_completions_for_image` lines
134-437, and `ai_comic_generator.py`, `call_tuzi_image_api` lines
903-948)

The response-content pattern matchers below implement the three regular
expressions of the source over character lists:
* async task marker: `\[原始数据\]\((https?://[^)]+/source/[^)]+)\)`
* bare image URL: `https?://[^\s\)]+\.(?:png|jpg|jpeg|webp)`
* inline base64: `data:image/[a-z]+;base64,([A-Za-z0-9+/=]+)` -/

/-- Does `"/source/"` occur in `cs` at an index of at least one, with at
least one character after it?  (The `[^)]+/source/[^)]+` part of the
async marker pattern, applied after the scheme.) -/
def hasSourceSegAux : List Char → Bool
  | [] => false
  | t@(_ :: rest) =>
    ("/source/".data.isPrefixOf t && t.length > "/source/".data.length)
      || hasSourceSegAux rest

def hasSourceSegFrom1 : List Char → Bool
  | [] => false
  | _ :: rest => hasSourceSegAux rest

/-- Does `u` (a run of non-`)` characters) match
`https?://[^)]+/source/[^)]+` in full? -/
def asyncUrlOk (u : List Char) : Bool :=
  if "http://".data.isPrefixOf u then hasSourceSegFrom1 (u.drop 7)
  else if "https://".data.isPrefixOf u then hasSourceSegFrom1 (u.drop 8)
  else false

/-- Scan for the async task marker; on a match return the captured URL
(the non-`)` run after `[原始数据](`, which must be followed by `)` and
have the polling-URL shape). -/
def asyncScan : List Char → Option (List Char)
  | [] => none
  | c :: rest =>
    let here := c :: rest
    if "[原始数据](".data.isPrefixOf here then
      let after := here.drop "[原始数据](".data.length
      let u := after.takeWhile (fun ch => ch ≠ ')')
      if u.length < after.length && asyncUrlOk u then some u
      else asyncScan rest
    else asyncScan rest

/-- `re.search` for the async task marker on a string. -/
def findAsyncTaskUrl (content : String) : Option String :=
  (asyncScan content.data).map String.mk

/-- Candidate image-URL suffix check: the run prefix ends with one of the
four extensions and has at least one character between `://` and the
dot. -/
def endsWithImageExt (schemeLen : Nat) (cs : List Char) : Bool :=
  [".png", ".jpg", ".jpeg", ".webp"].any
    (fun e => e.data.isSuffixOf cs && cs.length > schemeLen + e.data.length)

/-- Longest prefix of the run that ends with an image extension (the
greedy `[^\s\)]+\.(?:png|jpg|jpeg|webp)` match), with explicit fuel. -/
def longestExtPrefixAux (schemeLen : Nat) : Nat → List Char → Option (List Char)
  | 0, _ => none
  | fuel + 1, run =>
    if endsWithImageExt schemeLen run then some run
    else longestExtPrefixAux schemeLen fuel run.dropLast

/-- Try an image-URL match starting exactly at `cs`. -/
def urlAtPos (cs : List Char) : Option (List Char) :=
  let schemeLen : Nat :=
    if "http://".data.isPrefixOf cs then 7
    else if "https://".data.isPrefixOf cs then 8
    else 0
  if schemeLen = 0 then none
  else
    let run := cs.takeWhile (fun ch => ¬ ch.isWhitespace ∧ ch ≠ ')')
    longestExtPrefixAux schemeLen (run.length + 1) run

def imageUrlScan : List Char → Option (List Char)
  | [] => none
  | c :: rest =>
    match urlAtPos (c :: rest) with
    | some u => some u
    | none => imageUrlScan rest

/-- `re.search` for a bare image URL on a string. -/
def findImageUrl (content : String) : Option String :=
  (imageUrlScan content.data).map String.mk

def isBase64Char (c : Char) : Bool :=
  ('A' ≤ c && c ≤ 'Z') || ('a' ≤ c && c ≤ 'z') || ('0' ≤ c && c ≤ '9')
    || c = '+' || c = '/' || c = '='

def isLowerAlpha (c : Char) : Bool :=
  'a' ≤ c && c ≤ 'z'

def base64Scan : List Char → Option (List Char)
  | [] => none
  | c :: rest =>
    let here := c :: rest
    if "data:image/".data.isPrefixOf here then
      let after := here.drop "data:image/".data.length
      let mime := after.takeWhile isLowerAlpha
      if mime ≠ [] && ";base64,".data.isPrefixOf (after.drop mime.length) then
        let b := (after.drop (mime.length + ";base64,".data.length)).takeWhile isBase64Char
        if b ≠ [] then some b else base64Scan rest
      else base64Scan rest
    else base64Scan rest

/-- `re.search` for an inline base64 image payload; returns the captured
base64 character run. -/
def findBase64Payload (content : String) : Option (List Char) :=
  base64Scan content.data

/-! ### Oracles and outcomes of the image side -/

/-- Outcome of one `/v1/chat/completions` image request: a raised
exception, a non-200 response, or a 200 response carrying the assistant
message content and its tool calls (each tool call abstracted to the
image URL its parsed function arguments carry, if any; a missing or
empty `choices` list behaves as content `""` with no tool calls). -/
inductive ImgResp where
  | exn : ImgResp
  | httpErr : Nat → ImgResp
  | ok : String → List (Option String) → ImgResp
  deriving DecidableEq

/-- First entry of the `generations` list of a poll response. -/
inductive PollGen where
  | url : String → PollGen
  | imgPaths : List String → PollGen
  | other : PollGen
  deriving DecidableEq

/-- Outcome of one poll request: exception, non-200, non-JSON body, or a
JSON body with optional `status`, optional `urls` (distinguishing a
missing key from an empty list), `generations` entries and optional
`failure_reason`. -/
inductive PollResp where
  | exn : PollResp
  | httpErr : Nat → PollResp
  | notJson : PollResp
  | json : Option String → Option (List String) → List PollGen → Option String → PollResp
  deriving DecidableEq

/-- Terminal outcome of the async poll loop. -/
inductive AsyncOut where
  | success : String → AsyncOut
  | failed : String → AsyncOut
  | downloadFailed : AsyncOut
  | noUrls : AsyncOut
  | timedOut : AsyncOut
  deriving DecidableEq

/-- Environment of the image-generation side: one oracle per kind of
outbound request, plus the fresh temp-file namer and the number of polls
the wall-clock deadline admits (the `while time.time() - start_time <
timeout` loop sleeps about 3s per non-terminal poll). -/
structure ImgEnv where
  /-- Outcome of the n-th chat-completions image request of this call. -/
  resp : Nat → ImgResp
  /-- Outcome of the n-th poll request of an async poll loop. -/
  poll : Nat → PollResp
  /-- `requests.get` on an artifact URL: `none` for a raised exception,
  otherwise the status code. -/
  download : String → Option Nat
  /-- Fresh temp-file path for an artifact saved by the n-th attempt. -/
  tempName : Nat → String
  /-- Number of polls the deadline admits. -/
  pollBudget : Nat

/-- The `urls` / `generations` extraction of a completed poll body
(tuzi_chat_completions.py lines 281-291). -/
def urlsFromTask (urls : Option (List String)) (gens : List PollGen) : List String :=
  let image_urls := urls.getD []
  if image_urls = [] ∧ gens ≠ [] then
    match gens.head? with
    | some (.url u) => [u]
    | some (.imgPaths ps) => ps
    | _ => []
  else image_urls

/-- The async poll loop (tuzi_chat_completions.py lines 269-333): poll
until a terminal outcome or the deadline; a non-200, non-JSON or raised
poll (and a raised artifact download) sleeps and retries; a completed
body downloads its first URL (non-200 download is terminal); a "failed"
status is immediately terminal with the provider's reason; an exhausted
budget is the deadline timeout. -/
def pollLoop (env : ImgEnv) (tmp : String) : Nat → Nat → AsyncOut × List Ev
  | _, 0 => (.timedOut, [])
  | i, fuel + 1 =>
    match env.poll i with
    | .json status urls gens reason =>
      if status = some "completed" ∨ (status = none ∧ urls.isSome) then
        match (urlsFromTask urls gens).head? with
        | some u =>
          match env.download u with
          | some c =>
            if c = 200 then (.success tmp, [.poll, .download u])
            else (.downloadFailed, [.poll, .download u])
          | none =>
            let next := pollLoop env tmp (i + 1) fuel
            (next.1, .poll :: .download u :: next.2)
        | none => (.noUrls, [.poll])
      else if status = some "failed" then
        (.failed (reason.getD "未知原因"), [.poll])
      else
        let next := pollLoop env tmp (i + 1) fuel
        (next.1, .poll :: next.2)
    | _ =>
      let next := pollLoop env tmp (i + 1) fuel
      (next.1, .poll :: next.2)

/-- Download an artifact URL to the temp file; an exception and a non-200
status both fall through to the next extraction step, as in the bare-URL
branch (lines 336-359). -/
def tryDownloadToTemp (env : ImgEnv) (tmp : String) (u : String) :
    Option String × List Ev :=
  match env.download u with
  | some c => if c = 200 then (some tmp, [.download u]) else (none, [.download u])
  | none => (none, [.download u])

/-- The tool-call fallback (lines 383-413): download each carried image
URL in order; a 200 download returns, anything else continues. -/
def toolCallsLoop (env : ImgEnv) (tmp : String) :
    List (Option String) → Option String × List Ev
  | [] => (none, [])
  | some u :: rest =>
    match env.download u with
    | some c =>
      if c = 200 then (some tmp, [.download u])
      else
        let next := toolCallsLoop env tmp rest
        (next.1, .download u :: next.2)
    | none =>
      let next := toolCallsLoop env tmp rest
      (next.1, .download u :: next.2)
  | none :: rest => toolCallsLoop env tmp rest

/-- Step 1 of the cascade: the async task marker hands control to the
poll loop; only a successful poll yields an artifact here, every other
poll outcome falls through with the poll trace kept. -/
def asyncStage (env : ImgEnv) (tmp content : String) : Option String × List Ev :=
  if content ≠ "" then
    match findAsyncTaskUrl content with
    | some _ =>
      let pr := pollLoop env tmp 0 env.pollBudget
      match pr.1 with
      | .success f => (some f, pr.2)
      | _ => (none, pr.2)
    | none => (none, [])
  else (none, [])

/-- Step 2: bare image URL extraction and download. -/
def urlStage (env : ImgEnv) (tmp content : String) : Option String × List Ev :=
  if content ≠ "" then
    match findImageUrl content with
    | some u => tryDownloadToTemp env tmp u
    | none => (none, [])
  else (none, [])

/-- Step 3: inline base64 extraction; decoding succeeds when the
captured run has base64-valid length. -/
def b64Stage (tmp content : String) : Option String :=
  if content ≠ "" then
    match findBase64Payload content with
    | some b => if b.length % 4 = 0 then some tmp else none
    | none => none
  else none

/-- The response-content cascade of one attempt (lines 250-413): async
task marker first (handing over to the poll loop — but falling through to
the remaining extractors when the poll loop does not succeed), then bare
image URL, then inline base64, then tool calls. -/
def parseImageResponse (env : ImgEnv) (tmp : String) (content : String)
    (toolCalls : List (Option String)) : Option String × List Ev :=
  match (asyncStage env tmp content).1 with
  | some f => (some f, (asyncStage env tmp content).2)
  | none =>
    match (urlStage env tmp content).1 with
    | some f => (some f, (asyncStage env tmp content).2 ++ (urlStage env tmp content).2)
    | none =>
      match b64Stage tmp content with
      | some f => (some f, (asyncStage env tmp content).2 ++ (urlStage env tmp content).2)
      | none =>
        ((toolCallsLoop env tmp toolCalls).1,
          (asyncStage env tmp content).2 ++ (urlStage env tmp content).2
            ++ (toolCallsLoop env tmp toolCalls).2)

/-- `models_to_try` (lines 218-224): the requested model first, then the
hardcoded fallbacks, deduplicated. -/
def modelsToTry (model : String) : List String :=
  ["gpt-image-1.5", "gemini-2.5-flash-image-vip",
    "gemini-3-pro-image-preview/nano-banana-2"].foldl
    (fun acc fb => if fb ∈ acc then acc else acc ++ [fb]) [model]

/-- The per-model attempt loop of `call_tuzi_chat_completions_for_image`
(lines 226-432): one chat request per model in `models_to_try`, each
parsed by the cascade; the first artifact wins, otherwise the next model
is tried.  `n` numbers the chat requests; the third component is the
next free request index. -/
def tuziImageModelLoop (env : ImgEnv) : List String → Nat →
    Option String × List Ev × Nat
  | [], n => (none, [], n)
  | m :: rest, n =>
    match env.resp n with
    | .ok content toolCalls =>
      let pr := parseImageResponse env (env.tempName n) content toolCalls
      match pr.1 with
      | some f => (some f, .imgReq m :: pr.2, n + 1)
      | none =>
        let next := tuziImageModelLoop env rest (n + 1)
        (next.1, .imgReq m :: (pr.2 ++ next.2.1), next.2.2)
    | _ =>
      let next := tuziImageModelLoop env rest (n + 1)
      (next.1, .imgReq m :: next.2.1, next.2.2)

/-- `call_tuzi_chat_completions_for_image`. -/
def call_tuzi_chat_completions_for_image (env : ImgEnv) (model : String)
    (n : Nat) : Option String × List Ev × Nat :=
  tuziImageModelLoop env (modelsToTry model) n

/-- The outer model list of `call_tuzi_image_api`
(ai_comic_generator.py lines 924-930): the configured model (default
`gpt-image-1.5`) followed by the three hardcoded entries, not
deduplicated. -/
def tuziImageModels (cfgModel : String) : List String :=
  [cfgModel, "gpt-image-1.5", "gemini-2.5-flash-image-vip",
    "gemini-3-pro-image-preview/nano-banana-2"]

/-- The outer retry loop of `call_tuzi_image_api` (lines 932-946): one
`call_tuzi_chat_completions_for_image` call per outer model, first
artifact wins. -/
def call_tuzi_image_api_loop (env : ImgEnv) : List String → Nat →
    Option String × List Ev × Nat
  | [], n => (none, [], n)
  | m :: rest, n =>
    let r := call_tuzi_chat_completions_for_image env m n
    match r.1 with
    | some f => (some f, r.2.1, r.2.2)
    | none =>
      let next := call_tuzi_image_api_loop env rest r.2.2
      (next.1, r.2.1 ++ next.2.1, next.2.2)

/-- `call_tuzi_image_api`: configuration gate, then the outer model
rotation. -/
def call_tuzi_image_api (env : ImgEnv) (tuziConfigured : Bool)
    (cfgModel : Option String) : Option String × List Ev :=
  if ¬ tuziConfigured then (none, [])
  else
    let r := call_tuzi_image_api_loop env (tuziImageModels (cfgModel.getD "gpt-image-1.5")) 0
    (r.1, r.2.1)

/-! ### Claims C9, C3, C5 -/

/-- A poll response is "in progress": a JSON body whose status is present
but neither `"completed"` nor `"failed"`. -/
def pollInProgress (p : PollResp) : Prop :=
  ∃ s urls gens fr, p = PollResp.json (some s) urls gens fr ∧
    s ≠ "completed" ∧ s ≠ "failed"

/-- Oracle environment for the `poller_failed_is_terminal` witness. -/
def envC9 : ImgEnv where
  resp := fun _ => ImgResp.httpErr 500
  poll := fun i =>
    if i < 2 then PollResp.json (some "processing") none [] none
    else PollResp.json (some "failed") none [] (some "quota exceeded")
  download := fun _ => none
  tempName := fun _ => "/tmp/comic_tuzi_async_0.png"
  pollBudget := 100

/-- Oracle environment refuting claim C3: the first response carries the
async marker and a bare image URL; the async poll reports failure, and
the bare URL downloads successfully. -/
def envC3 : ImgEnv where
  resp := fun _ =>
    ImgResp.ok "[原始数据](https://h/source/t1) https://h/img.png" []
  poll := fun _ => PollResp.json (some "failed") none [] (some "boom")
  download := fun u => if u = "https://h/img.png" then some 200 else none
  tempName := fun _ => "/tmp/comic_tuzi_x.png"
  pollBudget := 10

/-- Oracle environment for the `async_poll_success_is_sole_outcome`
witness. -/
def envC3b : ImgEnv where
  resp := fun _ => ImgResp.ok "[原始数据](https://h/source/t2)" []
  poll := fun _ => PollResp.json (some "completed") (some ["https://h/done.png"]) [] none
  download := fun _ => some 200
  tempName := fun _ => "/tmp/comic_tuzi_ok.png"
  pollBudget := 5

/-- An image chat request that yields no 200 response (exception or HTTP
error). -/
def imgRespFails (env : ImgEnv) (n : Nat) : Prop :=
  match env.resp n with
  | .ok _ _ => False
  | _ => True

/-- Oracle environment refuting claim C5: every request fails with HTTP
500. -/
def envC5 : ImgEnv where
  resp := fun _ => ImgResp.httpErr 500
  poll := fun _ => PollResp.notJson
  download := fun _ => none
  tempName := fun _ => "/tmp/comic_tuzi_n.png"
  pollBudget := 0

/-! ## Configuration model

The configuration reaching the orchestrator, after `load_config`
(ai_comic_generator.py lines 97-119) merged the `ai` section into the
legacy `aiServices` view (so the legacy `aiServices.defaultReferenceImage`
equals `ai.defaultReferenceImage`).  The project root and the scripts
directory (`get_project_root()`, `os.path.dirname(__file__)`) are carried
here as well. -/

structure RoomSetting where
  /-- `roomSettings[room].referenceImage`. -/
  referenceImage : String := ""
  /-- `roomSettings[room].enableComicGeneration` (defaults to true). -/
  enableComicGeneration : Bool := true
  /-- `roomSettings[room].characterDescription`. -/
  characterDescription : String := ""
  /-- `roomSettings[room].characterDesc` (legacy key). -/
  characterDesc : String := ""
  /-- `roomSettings[room].customPrompts.comicScript`. -/
  comicScriptPrompt : Option String := none
  /-- `roomSettings[room].customPrompts.comicImage`. -/
  comicImagePrompt : Option String := none
  deriving DecidableEq

structure Config where
  roomSettings : List (String × RoomSetting) := []
  /-- `ai.defaultReferenceImage` (also the legacy
  `aiServices.defaultReferenceImage` built by `load_config`). -/
  defaultReferenceImage : String := ""
  /-- `ai.comic.defaultReferenceImage`. -/
  comicDefaultReferenceImage : String := ""
  /-- `ai.defaultCharacterDescription` (also its legacy view). -/
  defaultCharacterDescription : String := ""
  /-- `ai.comic.googleImage.enabled`. -/
  googleImageEnabled : Bool := false
  /-- `ai.comic.tuZi.enabled`. -/
  tuziEnabled : Bool := false
  /-- `is_tuzi_configured()`: the tuZi api key is present. -/
  tuziApiConfigured : Bool := false
  /-- `ai.comic.tuZi.model`. -/
  tuziModel : Option String := none
  /-- `get_project_root()`. -/
  projectRoot : String := ""
  /-- `os.path.dirname(__file__)` of the scripts directory. -/
  scriptsDir : String := ""
  deriving DecidableEq

def lookupRoom (cfg : Config) (room : String) : Option RoomSetting :=
  (cfg.roomSettings.find? (fun e => e.1 == room)).map (fun e => e.2)

/-! ## Reference resolver
(`ai_comic_generator.py`, `get_live_cover_image` lines 145-162 and
`get_room_reference_image` lines 164-263) -/

/-- `get_live_cover_image`: the first existing
`<dir>/<base>.cover.<ext>` next to the highlight file. -/
def get_live_cover_image (fs : FS) (highlight_path : String) : Option String :=
  let dir_path := dirname highlight_path
  let base_name := removeAll (basename highlight_path) "_AI_HIGHLIGHT.txt"
  ([".jpg", ".jpeg", ".png", ".webp"].map
    (fun ext => pjoin dir_path (base_name ++ ".cover" ++ ext))).find?
    (fun p => fsExists fs p)

/-- The repeated two-base-path lookup of the source: try the image path
relative to the project root, then relative to the scripts directory
(absolute paths are used as given). -/
def tryTwoBases (cfg : Config) (fs : FS) (img : String) : Option String :=
  let absolute_path := if ¬ isAbs img then pjoin cfg.projectRoot img else img
  if fsExists fs absolute_path then some absolute_path
  else
    let script_relative := if ¬ isAbs img then pjoin cfg.scriptsDir img else img
    if fsExists fs script_relative then some script_relative
    else none

/-- The conventional `reference_images/<room>.<ext>` lookup (lines
199-212; guarded by `not room_has_config` in the source). -/
def refImagesDirLookup (cfg : Config) (fs : FS) (room_id : String) : Option String :=
  let ref_images_dir := pjoin cfg.scriptsDir "reference_images"
  if fsExists fs ref_images_dir then
    ([".jpg", ".jpeg", ".png", ".webp"].map
      (fun ext => pjoin ref_images_dir (room_id ++ ext))).find?
      (fun p => fsExists fs p)
  else none

/-- The configured global default image lookup (lines 221-243): the new
`ai` keys first, then the legacy view (which `load_config` made equal to
`ai.defaultReferenceImage`), resolved against the two base paths. -/
def defaultImageLookup (cfg : Config) (fs : FS) : Option String :=
  let default_image :=
    if cfg.defaultReferenceImage ≠ "" then cfg.defaultReferenceImage
    else if cfg.comicDefaultReferenceImage ≠ "" then cfg.comicDefaultReferenceImage
    else cfg.defaultReferenceImage
  if default_image ≠ "" then tryTwoBases cfg fs default_image
  else none

/-- The built-in default filenames lookup (lines 245-261). -/
def builtinDefaultLookup (cfg : Config) (fs : FS) : Option String :=
  let public_ref_dir := pjoin cfg.projectRoot (pjoin "public" "reference_images")
  [public_ref_dir, pjoin cfg.scriptsDir "reference_images"].findSome?
    (fun ref_dir =>
      if fsExists fs ref_dir then
        (["default.jpg", "default.jpeg", "default.png", "default.webp",
          "岁己小红帽立绘.png", "雪绘.png"].map
          (fun f => pjoin ref_dir f)).find? (fun p => fsExists fs p)
      else none)

/-- `get_room_reference_image`.  `room_has_config` is set exactly when the
room is present in `roomSettings` with a non-empty `referenceImage`; both
the conventional directory lookup and the cover fallback are guarded by
`not room_has_config`, as in the source. -/
def get_room_reference_image (cfg : Config) (fs : FS) (room_id : String)
    (highlight_path : Option String) : Option String :=
  let roomEntry := lookupRoom cfg room_id
  let ref_image := match roomEntry with
    | some rs => rs.referenceImage
    | none => ""
  let room_has_config := roomEntry.isSome && ref_image ≠ ""
  let step1 : Option String :=
    match roomEntry with
    | some rs => if rs.referenceImage ≠ "" then tryTwoBases cfg fs rs.referenceImage else none
    | none => none
  match step1 with
  | some p => some p
  | none =>
  let step1b : Option String :=
    match roomEntry with
    | some _ => if room_has_config then none else refImagesDirLookup cfg fs room_id
    | none => none
  match step1b with
  | some p => some p
  | none =>
  let step2 : Option String :=
    if room_has_config then none
    else
      match highlight_path with
      | some hp => get_live_cover_image fs hp
      | none => none
  match step2 with
  | some p => some p
  | none =>
  match defaultImageLookup cfg fs with
  | some p => some p
  | none => builtinDefaultLookup cfg fs

/-- Configuration refuting claim C2: room `123` has a configured
reference image that does not exist on disk, and a global default is
configured and present. -/
def cfgC2 : Config where
  roomSettings := [("123", { referenceImage := "imgs/ref.png" })]
  defaultReferenceImage := "imgs/default.png"
  projectRoot := "/proj"
  scriptsDir := "/proj/src/scripts"
  tuziEnabled := true
  tuziApiConfigured := true

/-- Filesystem refuting claim C2: the cover image exists next to the
highlight file; the configured per-room reference image does not exist
at either base path; the configured default exists. -/
def fsC2 : FS :=
  [("/rec/123_20240101_AI_HIGHLIGHT.txt", "直播内容"),
   ("/rec/123_20240101.cover.jpg", ""),
   ("/proj/imgs/default.png", "")]

/-! ## Prompt building and the end-to-end pipeline
(`ai_comic_generator.py`: `get_room_character_description` lines 323-353,
`COMIC_ARTIST_PROMPT_TEMPLATE` lines 396-402,
`build_comic_generation_prompt` lines 404-420, `build_comic_prompt` lines
355-391, `generate_comic_from_highlight` lines 1136-1250) -/

/-- The cleaning step of `get_room_character_description`: collapse
lines, strip, drop angle brackets, truncate to 400 characters. -/
def cleanCharacterDesc (desc : String) : String :=
  let joined := String.mk
    (List.intercalate [' ']
      (((splitOnChar '\n' desc.data).map stripChars).filter (fun l => l ≠ [])))
  let noAngle := removeAll (removeAll joined "<") ">"
  if noAngle.data.length > 400 then String.mk (noAngle.data.take 400) else noAngle

/-- `get_room_character_description`: room keys first, then the global
default, then the built-in description. -/
def get_room_character_description (cfg : Config) (room_id : Option String) : String :=
  let roomDesc := match room_id with
    | some r =>
      match lookupRoom cfg r with
      | some rs => if rs.characterDescription ≠ "" then rs.characterDescription else rs.characterDesc
      | none => ""
    | none => ""
  let withDefault := if roomDesc ≠ "" then roomDesc else cfg.defaultCharacterDescription
  let desc := if withDefault ≠ "" then withDefault
    else "岁己SUI（白发红瞳女生），饼干岁（有细细四肢的小小小的饼干状生物）"
  cleanCharacterDesc desc

/-- `COMIC_ARTIST_PROMPT_TEMPLATE`. -/
def COMIC_ARTIST_PROMPT_TEMPLATE : String :=
  "你作为虚拟主播二创画师大手子，根据直播内容，绘制直播总结插画。
角色描述：{character_desc}。
风格：多个剪贴画风格分镜（2~4个吧），每个是一个片段场景，
不要有文字，纯默剧，用表情和动作、场景、图标来表现。
下面是一场直播的语音+弹幕文本，请先构思图片并用文字给我，我再拿去绘制图片。整体600个字符以内。只返回各个分镜的文字描述，不要包含任何多余的说明、格式。
{highlight_content}
"

/-- `build_comic_generation_prompt`: room custom script prompt or the
template, with the two placeholders substituted. -/
def build_comic_generation_prompt (cfg : Config) (character_desc highlight_content : String)
    (room_id : Option String) : String :=
  let custom := match room_id with
    | some r => (lookupRoom cfg r).bind (fun rs => rs.comicScriptPrompt)
    | none => none
  let template := match custom with
    | some c => pyStrip c
    | none => pyStrip COMIC_ARTIST_PROMPT_TEMPLATE
  let base := strReplace template "{character_desc}" character_desc
  strReplace base "{highlight_content}" highlight_content

/-- `build_comic_prompt`: reuse a non-blank existing script as generated,
otherwise call the text generator; then build the image prompt (room
custom image prompt or the default block).  Returns
`((base_prompt, comic_content, is_generated), provider events)`.
`reference_image_path` is accepted as in the source but unused by it. -/
def build_comic_prompt (cfg : Config) (tenv : TextEnv) (highlight_content : String)
    (reference_image_path : Option String) (room_id : Option String)
    (existing_comic : Option String) : (String × String × Bool) × List Ev :=
  let gen : (String × Bool) × List Ev :=
    match existing_comic with
    | some ec =>
      if ec ≠ "" ∧ pyStrip ec ≠ "" then ((ec, true), [])
      else generate_comic_content_with_ai tenv highlight_content
    | none => generate_comic_content_with_ai tenv highlight_content
  let comic_content := gen.1.1
  let is_generated := gen.1.2
  let character_desc := get_room_character_description cfg room_id
  let custom_image_prompt := match room_id with
    | some r => (lookupRoom cfg r).bind (fun rs => rs.comicImagePrompt)
    | none => none
  let base_prompt := match custom_image_prompt with
    | some c => strReplace (strReplace c "{character_desc}" character_desc)
        "{comic_content}" comic_content
    | none =>
      "<note>一定要按照给你的参考图还原形象，而不是自己乱画一个动漫角色</note>\n<character>"
        ++ character_desc
        ++ "</character>\n要画得精致，角色要画得帅气、美丽、可爱。\n尽量不要有汉字，除非就一两个字。\n下面是根据直播内容生成的漫画脚本，请根据这个脚本绘制漫画：\n"
        ++ comic_content
  ((base_prompt, comic_content, is_generated), gen.2)

/-- `extract_room_id_from_filename`: the regex `^(\d+)_`. -/
def extract_room_id_from_filename (filename : String) : Option String :=
  let ds := filename.data.takeWhile Char.isDigit
  if ds ≠ [] ∧ "_".data.isPrefixOf (filename.data.drop ds.length) then some (String.mk ds)
  else none

/-- `is_googleimage_configured` (lines 125-127): hardcoded to `False`;
the whole Google image path behind it is dead code. -/
def is_googleimage_configured : Bool := false

/-- `call_google_image_api` (lines 719-901): its guard returns `None`
immediately because `is_googleimage_configured()` is constantly false;
the unreachable remainder is abstracted as a single provider event with
no artifact. -/
def call_google_image_api : Option String × List Ev :=
  if is_googleimage_configured then (none, [Ev.googleImg]) else (none, [])

/-- The derived path of the cached comic script next to the highlight
file (lines 1183-1185). -/
def comicScriptPath (highlight_path : String) : String :=
  pjoin (dirname highlight_path)
    (removeAll (basename highlight_path) "_AI_HIGHLIGHT.txt" ++ "_COMIC_SCRIPT.txt")

/-- The derived output path of the comic image (line 1241). -/
def comicOutputPath (highlight_path : String) : String :=
  pjoin (dirname highlight_path)
    (removeAll (basename highlight_path) "_AI_HIGHLIGHT.txt" ++ "_COMIC_FACTORY.png")

/-- `roomSettings[room].enableComicGeneration` with its default. -/
def roomComicEnabled (cfg : Config) (room_id : String) : Bool :=
  match lookupRoom cfg room_id with
  | some rs => rs.enableComicGeneration
  | none => true

/-- The image-generation stage of `generate_comic_from_highlight` (lines
1213-1232): Google first when enabled (constantly producing nothing, see
`call_google_image_api`), then tuZi when enabled. -/
def imageStage (cfg : Config) (ienv : ImgEnv) : Option String × List Ev :=
  let googleRes := if cfg.googleImageEnabled then call_google_image_api else (none, [])
  match googleRes.1 with
  | some f => (some f, googleRes.2)
  | none =>
    if cfg.tuziEnabled then
      let r := call_tuzi_image_api ienv cfg.tuziApiConfigured cfg.tuziModel
      (r.1, googleRes.2 ++ r.2)
    else (none, googleRes.2)

/-- Room id resolution (lines 1152-1160): the passed id, else the one
extracted from the filename, else `"unknown"`. -/
def resolveRoomId (highlight_path : String) (room_arg : Option String) : String :=
  let room_id0 := match room_arg with
    | some r => r
    | none => (extract_room_id_from_filename (basename highlight_path)).getD "unknown"
  if pyStrip room_id0 = "" then "unknown" else room_id0

/-- `generate_comic_from_highlight`.  A missing highlight file raises
`FileNotFoundError`, caught by the outer handler returning `None`.
Writing the script cache (lines 1204-1211) touches no observable of this
model (the cache is not re-read within the call) and is omitted; the
artifact returned by the image stage exists on disk when
`save_comic_result` inspects it, hence the extended filesystem there. -/
def generate_comic_from_highlight (cfg : Config) (fs : FS) (tenv : TextEnv)
    (ienv : ImgEnv) (highlight_path : String) (room_arg : Option String) :
    Option String × List Ev :=
  if ¬ fsExists fs highlight_path then (none, [])
  else
    let room_id := resolveRoomId highlight_path room_arg
    let reference_image_path := get_room_reference_image cfg fs room_id (some highlight_path)
    if roomComicEnabled cfg room_id = false then (none, [])
    else
      let comic_text : Option String :=
        if fsExists fs (comicScriptPath highlight_path) then
          some (fsRead fs (comicScriptPath highlight_path))
        else none
      let bp := build_comic_prompt cfg tenv (fsRead fs highlight_path)
        reference_image_path (some room_id) comic_text
      if bp.1.2.2 = false then (none, bp.2)
      else
        let img := imageStage cfg ienv
        match img.1 with
        | none => (none, bp.2 ++ img.2)
        | some comic_result =>
          (save_comic_result ((comic_result, "") :: fs) ienv.download
            (comicOutputPath highlight_path) comic_result, bp.2 ++ img.2)

/-- Config for the C1 witness: tuZi image generation enabled and
configured, so nothing but the failed text generation blocks images. -/
def cfgC1 : Config where
  tuziEnabled := true
  tuziApiConfigured := true
  projectRoot := "/proj"
  scriptsDir := "/proj/src/scripts"

/-- Filesystem for the C1 witness: the highlight file exists, no script
cache. -/
def fsC1 : FS := [("/rec/55_x_AI_HIGHLIGHT.txt", "直播精彩内容")]

/-- Text oracle for the C1 witness: every provider fails, so the
generator degrades to the raw input. -/
def envC1text : TextEnv where
  nodeAvailable := false
  nodeResult := none
  geminiImportOk := true
  geminiKeyConfigured := true
  gemini := fun _ => .error
  tuziConfigured := true
  tuziText := fun _ => .ret none

/-- Image oracle for the C1 witness: would succeed instantly if it were
ever consulted. -/
def envC1img : ImgEnv where
  resp := fun _ => ImgResp.ok "https://h/ready.png" []
  poll := fun _ => PollResp.notJson
  download := fun _ => some 200
  tempName := fun _ => "/tmp/comic_c1.png"
  pollBudget := 3

/-- Config for the C6 witness. -/
def cfgC6 : Config where
  tuziEnabled := true
  tuziApiConfigured := true
  projectRoot := "/proj"
  scriptsDir := "/proj/src/scripts"

/-- Filesystem for the C6 witness: highlight plus a non-blank cached
script. -/
def fsC6 : FS :=
  [("/rec/77_y_AI_HIGHLIGHT.txt", "直播精彩内容"),
   ("/rec/77_y_COMIC_SCRIPT.txt", "分镜一：主播大笑")]

/-- Text oracle for the C6 witness: would generate if it were consulted. -/
def envC6text : TextEnv where
  nodeAvailable := true
  nodeResult := some (0, "新生成的脚本")
  geminiImportOk := true
  geminiKeyConfigured := true
  gemini := fun _ => .content "新生成的脚本"
  tuziConfigured := true
  tuziText := fun _ => .ret (some "新生成的脚本")

/-- Image oracle for the C6 witness. -/
def envC6img : ImgEnv where
  resp := fun _ => ImgResp.httpErr 500
  poll := fun _ => PollResp.notJson
  download := fun _ => none
  tempName := fun _ => "/tmp/comic_c6.png"
  pollBudget := 3

/-! The theorems of the development, in dependency order. -/

theorem decCharsAux_fuel_irrel :
    ∀ f₁ f₂ n, n ≤ f₁ → n ≤ f₂ → decCharsAux f₁ n = decCharsAux f₂ n := by
  intro f₁
  induction f₁ with
  | zero =>
    intro f₂ n h1 _
    interval_cases n
    cases f₂ <;> simp [decCharsAux]
  | succ f ih =>
    intro f₂ n h1 h2
    cases f₂ with
    | zero =>
      interval_cases n
      simp [decCharsAux]
    | succ f' =>
      by_cases hn : n = 0
      · simp [decCharsAux, hn]
      · have hd : n / 10 < n := Nat.div_lt_self (Nat.pos_of_ne_zero hn) (by omega)
        simp only [decCharsAux, if_neg hn]
        rw [ih f' (n / 10) (by omega) (by omega)]

/-- Unfolding of `decCharsAux n n` for positive `n`. -/
theorem decCharsAux_self (n : Nat) (hn : n ≠ 0) :
    decCharsAux n n = decCharsAux (n / 10) (n / 10) ++ [Nat.digitChar (n % 10)] := by
  cases n with
  | zero => exact absurd rfl hn
  | succ m =>
    have hd : (m + 1) / 10 < m + 1 := Nat.div_lt_self (by omega) (by omega)
    simp only [decCharsAux, if_neg hn]
    rw [decCharsAux_fuel_irrel m ((m + 1) / 10) ((m + 1) / 10) (by omega) (by omega)]

theorem digitChar_inj_lt10 :
    ∀ a < 10, ∀ b < 10, Nat.digitChar a = Nat.digitChar b → a = b := by
  decide

theorem decCharsAux_self_ne_nil (n : Nat) (hn : n ≠ 0) :
    decCharsAux n n ≠ [] := by
  rw [decCharsAux_self n hn]
  simp

theorem decCharsAux_self_inj :
    ∀ n m, n ≠ 0 → m ≠ 0 → decCharsAux n n = decCharsAux m m → n = m := by
  intro n
  induction n using Nat.strong_induction_on with
  | _ n ih =>
    intro m hn hm h
    rw [decCharsAux_self n hn, decCharsAux_self m hm] at h
    have h' := congrArg List.reverse h
    simp only [List.reverse_append, List.reverse_cons, List.reverse_nil,
      List.nil_append, List.cons_append, List.cons.injEq] at h'
    obtain ⟨hdig, hrest⟩ := h'
    have hmod : n % 10 = m % 10 :=
      digitChar_inj_lt10 _ (Nat.mod_lt _ (by omega)) _ (Nat.mod_lt _ (by omega)) hdig
    have hpre : decCharsAux (n / 10) (n / 10) = decCharsAux (m / 10) (m / 10) := by
      have := congrArg List.reverse hrest
      simpa using this
    have hdiv : n / 10 = m / 10 := by
      by_cases h1 : n / 10 = 0
      · by_cases h2 : m / 10 = 0
        · omega
        · rw [h1] at hpre
          exact absurd hpre.symm (by simpa [decCharsAux] using decCharsAux_self_ne_nil _ h2)
      · by_cases h2 : m / 10 = 0
        · rw [h2] at hpre
          exact absurd hpre (by simpa [decCharsAux] using decCharsAux_self_ne_nil _ h1)
        · exact ih (n / 10) (Nat.div_lt_self (Nat.pos_of_ne_zero hn) (by omega)) _ h1 h2 hpre
    omega

/-- `str` is injective on naturals: distinct counters give distinct
decimal strings. -/
theorem natDecimal_inj : ∀ {n m : Nat}, natDecimal n = natDecimal m → n = m := by
  intro n m h
  by_cases hn : n = 0 <;> by_cases hm : m = 0
  · omega
  · exfalso
    simp only [natDecimal, if_pos hn, if_neg hm] at h
    have : decCharsAux m m = ['0'] := by
      have := congrArg String.data h
      simpa using this.symm
    rw [decCharsAux_self m hm] at this
    have h0 : Nat.digitChar (m % 10) = '0' ∧ decCharsAux (m / 10) (m / 10) = [] := by
      have hlen := congrArg List.length this
      simp at hlen
      have hnil : decCharsAux (m / 10) (m / 10) = [] := hlen
      rw [hnil] at this
      simp at this
      exact ⟨this, hnil⟩
    have hmod : m % 10 = 0 :=
      digitChar_inj_lt10 _ (Nat.mod_lt _ (by omega)) _ (by omega) h0.1
    have hdiv : m / 10 = 0 := by
      by_contra hd
      exact decCharsAux_self_ne_nil _ hd h0.2
    omega
  · exfalso
    simp only [natDecimal, if_neg hn, if_pos hm] at h
    have : decCharsAux n n = ['0'] := by
      have := congrArg String.data h
      simpa using this
    rw [decCharsAux_self n hn] at this
    have h0 : Nat.digitChar (n % 10) = '0' ∧ decCharsAux (n / 10) (n / 10) = [] := by
      have hlen := congrArg List.length this
      simp at hlen
      have hnil : decCharsAux (n / 10) (n / 10) = [] := hlen
      rw [hnil] at this
      simp at this
      exact ⟨this, hnil⟩
    have hmod : n % 10 = 0 :=
      digitChar_inj_lt10 _ (Nat.mod_lt _ (by omega)) _ (by omega) h0.1
    have hdiv : n / 10 = 0 := by
      by_contra hd
      exact decCharsAux_self_ne_nil _ hd h0.2
    omega
  · simp only [natDecimal, if_neg hn, if_neg hm] at h
    have := congrArg String.data h
    simp only [String.data] at this
    exact decCharsAux_self_inj n m hn hm (by simpa using this)

/-! Adequacy of the loop fuel: among the first `fs.length + 1` candidate
names at least one is free, because the candidates are pairwise distinct
(`natDecimal_inj`) while `fs` holds only `fs.length` paths. -/

/-- Strings are equal iff their character lists are. -/
theorem string_data_inj {s t : String} (h : s.data = t.data) : s = t := by
  cases s
  cases t
  exact congrArg String.mk (by simpa using h)

theorem gufRight_inj (base_path : String) {j k : Nat}
    (h : gufRight base_path j = gufRight base_path k) : j = k := by
  unfold gufRight at h
  have hd := congrArg String.data h
  simp only [String.data_append, List.append_assoc] at hd
  have hd' := List.append_cancel_left (List.append_cancel_left hd)
  have hd'' := List.append_cancel_right hd'
  exact natDecimal_inj (string_data_inj hd'')

/-- Whether the candidate right part is absolute does not depend on the
counter: its first character is that of the name part, or an underscore. -/
theorem gufRight_isAbs (base_path : String) (j k : Nat) :
    isAbs (gufRight base_path j) = isAbs (gufRight base_path k) := by
  unfold gufRight isAbs
  cases hn : (splitExtBase (basename base_path)).1.data with
  | nil => simp [String.data_append, hn]
  | cons c rest => simp [String.data_append, hn]

theorem gufCandidate_inj (base_path : String) {j k : Nat}
    (h : gufCandidate base_path j = gufCandidate base_path k) : j = k := by
  have hcand : ∀ i, gufCandidate base_path i = pjoin (dirname base_path) (gufRight base_path i) :=
    fun i => rfl
  rw [hcand j, hcand k] at h
  have habs := gufRight_isAbs base_path j k
  unfold pjoin at h
  apply gufRight_inj base_path
  by_cases h1 : isAbs (gufRight base_path j) = true
  · rw [if_pos h1, if_pos (habs ▸ h1)] at h
    exact h
  · rw [if_neg h1, if_neg (fun hc => h1 (habs ▸ hc))] at h
    by_cases h2 : dirname base_path = ""
    · rw [if_pos h2, if_pos h2] at h
      exact h
    · rw [if_neg h2, if_neg h2] at h
      by_cases h3 : ((dirname base_path).data.getLast? == some '/') = true
      · rw [if_pos h3, if_pos h3] at h
        have hd := congrArg String.data h
        simp only [String.data_append] at hd
        exact string_data_inj (List.append_cancel_left hd)
      · rw [if_neg h3, if_neg h3] at h
        have hd := congrArg String.data h
        simp only [String.data_append, List.append_assoc] at hd
        exact string_data_inj (List.append_cancel_left (List.append_cancel_left hd))

theorem exists_free_candidate (fs : FS) (base_path : String) :
    ∃ k, 1 ≤ k ∧ k < fs.length + 2 ∧
      fsExists fs (gufCandidate base_path k) = false := by
  by_contra hall
  push_neg at hall
  have hmem : ∀ k, 1 ≤ k → k < fs.length + 2 →
      gufCandidate base_path k ∈ fs.map Prod.fst := by
    intro k h1 h2
    have := hall k h1 h2
    rw [Bool.ne_false_iff] at this
    simp only [fsExists, List.any_eq_true] at this
    obtain ⟨e, he, heq⟩ := this
    rw [beq_iff_eq] at heq
    exact heq ▸ List.mem_map_of_mem Prod.fst he
  have hinj : Function.Injective (fun i : Fin (fs.length + 1) =>
      gufCandidate base_path (i.val + 1)) := by
    intro a b hab
    have := gufCandidate_inj base_path hab
    omega
  have hsub : ∀ i : Fin (fs.length + 1),
      gufCandidate base_path (i.val + 1) ∈ (fs.map Prod.fst).toFinset := by
    intro i
    rw [List.mem_toFinset]
    exact hmem _ (by omega) (by omega)
  have hcard := Finset.card_le_card_of_injOn (s := (Finset.univ : Finset (Fin (fs.length + 1))))
    (fun i : Fin (fs.length + 1) => gufCandidate base_path (i.val + 1))
    (fun i _ => hsub i) (Function.Injective.injOn hinj)
  simp only [Finset.card_univ, Fintype.card_fin] at hcard
  have hlen : (fs.map Prod.fst).toFinset.card ≤ fs.length := by
    calc (fs.map Prod.fst).toFinset.card ≤ (fs.map Prod.fst).length :=
          (fs.map Prod.fst).toFinset_card_le
      _ = fs.length := List.length_map fs Prod.fst
  omega

/-- The loop returns the first free candidate at or after `counter`,
provided a free candidate lies within the fuel window. -/
theorem gufLoop_spec (fs : FS) (base_path : String) :
    ∀ fuel counter,
      (∃ k, counter ≤ k ∧ k < counter + fuel ∧
        fsExists fs (gufCandidate base_path k) = false) →
      ∃ k, counter ≤ k ∧
        gufLoop fs base_path counter fuel = gufCandidate base_path k ∧
        fsExists fs (gufCandidate base_path k) = false ∧
        ∀ j, counter ≤ j → j < k → fsExists fs (gufCandidate base_path j) = true := by
  intro fuel
  induction fuel with
  | zero =>
    intro counter ⟨k, h1, h2, _⟩
    omega
  | succ f ih =>
    intro counter ⟨k, h1, h2, hfree⟩
    by_cases hc : fsExists fs (gufCandidate base_path counter) = true
    · have hkc : k ≠ counter := by
        intro he
        rw [he] at hfree
        rw [hfree] at hc
        exact Bool.false_ne_true hc
      obtain ⟨k', hk1, hk2, hk3, hk4⟩ := ih (counter + 1) ⟨k, by omega, by omega, hfree⟩
      refine ⟨k', by omega, ?_, hk3, ?_⟩
      · simp only [gufLoop, if_pos hc]
        exact hk2
      · intro j hj1 hj2
        rcases Nat.eq_or_lt_of_le hj1 with he | hlt
        · exact he ▸ hc
        · exact hk4 j hlt hj2
    · refine ⟨counter, Nat.le_refl _, ?_, by simpa using hc, by omega⟩
      simp only [gufLoop, if_neg hc]

/-- Every successful `save_comic_result` writes to (and returns) the
unique path computed by `generate_unique_filename`. -/
theorem save_comic_result_target (fs : FS) (download : DownloadOracle)
    (output_path data res : String)
    (h : save_comic_result fs download output_path data = some res) :
    res = generate_unique_filename fs output_path := by
  simp only [save_comic_result] at h
  split_ifs at h <;>
    first
      | exact (Option.some.inj h).symm
      | cases h
      | (split at h
         · exact (Option.some.inj h).symm
         · cases h)

/-- Claim C10: `generate_unique_filename(p)` names a file that does not
exist: it returns `p` itself exactly when `p` does not exist, and
otherwise the path obtained by inserting suffix `_k` before the extension
(`gufCandidate`, which is built from the directory and extension of `p`,
so both are preserved) for the smallest positive `k` whose file does not
exist; consequently `save_comic_result` only ever writes to a path that
does not already exist. -/
theorem generate_unique_filename_fresh (fs : FS) (p : String) :
    fsExists fs (generate_unique_filename fs p) = false
    ∧ (fsExists fs p = false → generate_unique_filename fs p = p)
    ∧ (fsExists fs p = true → ∃ k, 1 ≤ k ∧
        generate_unique_filename fs p = gufCandidate p k ∧
        ∀ j, 1 ≤ j → j < k → fsExists fs (gufCandidate p j) = true)
    ∧ (∀ download data res, save_comic_result fs download p data = some res →
        fsExists fs res = false) := by
  have hfresh : fsExists fs (generate_unique_filename fs p) = false ∧
      (fsExists fs p = true → ∃ k, 1 ≤ k ∧
        generate_unique_filename fs p = gufCandidate p k ∧
        ∀ j, 1 ≤ j → j < k → fsExists fs (gufCandidate p j) = true) := by
    by_cases hp : fsExists fs p = true
    · obtain ⟨k₀, hk₀1, hk₀2, hk₀free⟩ := exists_free_candidate fs p
      obtain ⟨k, hkge, heq, hfree, hmin⟩ :=
        gufLoop_spec fs p (fs.length + 1) 1 ⟨k₀, hk₀1, by omega, hk₀free⟩
      have hgen : generate_unique_filename fs p = gufCandidate p k := by
        simp only [generate_unique_filename, hp]
        simpa using heq
      exact ⟨by rw [hgen]; exact hfree, fun _ => ⟨k, hkge, hgen, hmin⟩⟩
    · have hp' : fsExists fs p = false := by simpa using hp
      have hgen : generate_unique_filename fs p = p := by
        simp [generate_unique_filename, hp']
      exact ⟨by rw [hgen]; exact hp', fun hc => absurd hc hp⟩
  refine ⟨hfresh.1, ?_, hfresh.2, ?_⟩
  · intro hc
    simp [generate_unique_filename, hc]
  · intro download data res hres
    rw [save_comic_result_target fs download p data res hres]
    exact hfresh.1

/-- Witness for `generate_unique_filename_fresh` at concrete inputs: a
missing path is returned unchanged, and a clash gets suffix `_1`. -/
theorem generate_unique_filename_fresh_witness :
    generate_unique_filename [("rec/out.png", "x")] "rec/new.png" = "rec/new.png"
    ∧ fsExists [("rec/out.png", "x")] "rec/out_1.png" = false := by
  constructor
  · exact (generate_unique_filename_fresh [("rec/out.png", "x")] "rec/new.png").2.1 (by decide)
  · exact (generate_unique_filename_fresh [("rec/out.png", "x")] "rec/out.png").2.2.2
      (fun _ => some 200) "hello" "rec/out_1.png" (by decide)

/-! ### Stage lemmas for the text cascade -/

/-- The node stage never returns marker-carrying text as a success. -/
theorem nodeStage_no_marker (env : TextEnv) (s : String) (b : Bool)
    (h : (nodeStage env).1 = some (s, b)) : is_gemini_error s = false := by
  rcases hr : env.nodeResult with _ | ⟨rc, out⟩ <;>
    simp only [nodeStage, hr] at h <;>
    split_ifs at h <;>
    first
      | (rename_i hok
         have hst := congrArg Prod.fst (Option.some.inj h)
         simp only at hst
         rw [← hst]
         exact hok.2)
      | exact Option.noConfusion h

/-- The node stage emits only node events. -/
theorem nodeStage_trace (env : TextEnv) :
    ∀ e ∈ (nodeStage env).2, e = Ev.node := by
  intro e he
  rcases hr : env.nodeResult with _ | ⟨rc, out⟩ <;>
    simp only [nodeStage, hr] at he <;>
    split_ifs at he <;>
    first
      | (simp only [List.mem_singleton] at he
         exact he)
      | cases he

/-- A successful (`wasGenerated = true`) result of the Gemini loop is
free of the error marker. -/
theorem geminiLoop_no_marker (env : TextEnv) (input : String) :
    ∀ l s, (geminiLoop env input l).1 = some (s, true) →
      is_gemini_error s = false := by
  intro l
  induction l with
  | nil => intro s h; cases h
  | cons a rest ih =>
    intro s h
    rcases hg : env.gemini a with _ | _ | t <;>
      simp only [geminiLoop, hg] at h <;>
      split_ifs at h <;>
      first
        | exact ih s h
        | (rename_i hmark
           have hst := congrArg Prod.fst (Option.some.inj h)
           simp only at hst
           rw [← hst]
           simpa using hmark)
        | (have hb := congrArg Prod.snd (Option.some.inj h)
           simp only at hb
           exact Bool.noConfusion hb)
        | exact Option.noConfusion h

/-- The Gemini loop emits only gemini events. -/
theorem geminiLoop_trace (env : TextEnv) (input : String) :
    ∀ l, ∀ e ∈ (geminiLoop env input l).2, ∃ a, e = Ev.gemini a := by
  intro l
  induction l with
  | nil => intro e he; cases he
  | cons a rest ih =>
    intro e he
    rcases hg : env.gemini a with _ | _ | t <;>
      simp only [geminiLoop, hg] at he <;>
      split_ifs at he <;>
      first
        | (simp only [List.mem_singleton] at he
           exact ⟨a, he⟩)
        | (simp only [List.mem_cons] at he
           rcases he with he | he
           · exact ⟨a, he⟩
           · exact ih e he)
        | cases he

/-- A successful (`wasGenerated = true`) result of the tuZi loop is free
of the error marker. -/
theorem tuziLoop_no_marker (env : TextEnv) (input : String) :
    ∀ l s, (tuziLoop env input l).1 = (s, true) →
      is_gemini_error s = false := by
  intro l
  induction l with
  | nil =>
    intro s h
    have hb := congrArg Prod.snd h
    simp only [tuziLoop] at hb
    exact absurd hb (by simp)
  | cons a rest ih =>
    intro s h
    rcases ht : env.tuziText a with _ | (_ | t) <;>
      simp only [tuziLoop, ht] at h <;>
      split_ifs at h <;>
      first
        | exact ih s h
        | (rename_i hmark
           have hst := congrArg Prod.fst h
           simp only at hst
           rw [← hst]
           simpa using hmark)
        | (have hb := congrArg Prod.snd h
           simp only at hb
           exact Bool.noConfusion hb)

/-- The tuZi loop emits only tuZi text events. -/
theorem tuziLoop_trace (env : TextEnv) (input : String) :
    ∀ l, ∀ e ∈ (tuziLoop env input l).2, ∃ a, e = Ev.tuziText a := by
  intro l
  induction l with
  | nil => intro e he; cases he
  | cons a rest ih =>
    intro e he
    rcases ht : env.tuziText a with _ | (_ | t) <;>
      simp only [tuziLoop, ht] at he <;>
      split_ifs at he <;>
      first
        | (simp only [List.mem_singleton] at he
           exact ⟨a, he⟩)
        | (simp only [List.mem_cons] at he
           rcases he with he | he
           · exact ⟨a, he⟩
           · exact ih e he)
        | cases he

/-! ### Claims C7, C8, C4 -/

/-- Claim C8: a generated (`wasGenerated = true`) result of the text
script generator never contains the provider-error marker, whatever the
transport outcomes were: marker-carrying responses are rejected on every
path (node reuse, Gemini, tuZi backup). -/
theorem text_success_never_error_marker (env : TextEnv) (input s : String)
    (tr : List Ev)
    (h : generate_comic_content_with_ai env input = ((s, true), tr)) :
    is_gemini_error s = false := by
  unfold generate_comic_content_with_ai at h
  rcases hn : (nodeStage env).1 with _ | r <;> rw [hn] at h
  · rcases hg : (geminiLoop env input [0, 1, 2]).1 with _ | r2 <;> rw [hg] at h
    · simp only at h
      have h1 := congrArg Prod.fst h
      simp only at h1
      exact tuziLoop_no_marker env input [0, 1, 2] s h1
    · simp only at h
      have h1 := congrArg Prod.fst h
      simp only at h1
      exact geminiLoop_no_marker env input [0, 1, 2] s (h1 ▸ hg)
  · simp only at h
    have h1 := congrArg Prod.fst h
    simp only at h1
    exact nodeStage_no_marker env s true (h1 ▸ hn)

/-- Witness for `text_success_never_error_marker`. -/
theorem text_success_never_error_marker_witness :
    is_gemini_error "漫画分镜脚本" = false :=
  text_success_never_error_marker envC8 "直播原文" "漫画分镜脚本" [Ev.gemini 0] (by decide)

/-- If every attempt in the list fails, the tuZi loop degrades to the
original input with `wasGenerated = false`. -/
theorem tuziLoop_all_fail (env : TextEnv) (input : String) :
    ∀ l, (∀ a ∈ l, tuziAttemptFails env a) →
      (tuziLoop env input l).1 = (input, false) := by
  intro l
  induction l with
  | nil => intro _; rfl
  | cons a rest ih =>
    intro hfail
    have hrest : ∀ b ∈ rest, tuziAttemptFails env b :=
      fun b hb => hfail b (List.mem_cons_of_mem a hb)
    have ha := hfail a (List.mem_cons_self a rest)
    rcases ht : env.tuziText a with _ | (_ | t) <;>
      simp only [tuziLoop, ht] <;> split_ifs <;>
      first
        | rfl
        | exact ih hrest
        | (exfalso
           rw [tuziAttemptFails, ht] at ha
           rename_i hne hmark
           rcases ha with ha | ha
           · exact hne ha
           · exact hmark ha)

/-- If every attempt in the list fails, the Gemini loop either falls
through to the backup or returns the original input ungenerated (the
latter on an empty response or a missing key). -/
theorem geminiLoop_all_fail (env : TextEnv) (input : String) :
    ∀ l, (∀ a ∈ l, geminiAttemptFails env a) →
      (geminiLoop env input l).1 = none ∨
      (geminiLoop env input l).1 = some (input, false) := by
  intro l
  induction l with
  | nil => intro _; exact Or.inl rfl
  | cons a rest ih =>
    intro hfail
    have hrest : ∀ b ∈ rest, geminiAttemptFails env b :=
      fun b hb => hfail b (List.mem_cons_of_mem a hb)
    have ha := hfail a (List.mem_cons_self a rest)
    rcases hg : env.gemini a with _ | _ | t <;>
      simp only [geminiLoop, hg] <;> split_ifs <;>
      first
        | exact Or.inl rfl
        | exact Or.inr rfl
        | exact ih hrest
        | (exfalso
           rw [geminiAttemptFails, hg] at ha
           rename_i hmark
           exact hmark ha)

/-- Claim C7: when every provider is exhausted — the node reuse stage
yields nothing and all three Gemini attempts and all three tuZi attempts
fail — `generate_comic_content_with_ai` returns exactly the original
input text, character for character, with `wasGenerated = false`. -/
theorem all_providers_exhausted_returns_original (env : TextEnv) (input : String)
    (hnode : (nodeStage env).1 = none)
    (hgem : ∀ a, a < 3 → geminiAttemptFails env a)
    (htuzi : ∀ a, a < 3 → tuziAttemptFails env a) :
    (generate_comic_content_with_ai env input).1 = (input, false) := by
  have hgem3 : ∀ a ∈ [0, 1, 2], geminiAttemptFails env a := by
    intro a ha
    simp only [List.mem_cons, List.mem_singleton, List.not_mem_nil] at ha
    rcases ha with rfl | rfl | rfl | h
    · exact hgem 0 (by omega)
    · exact hgem 1 (by omega)
    · exact hgem 2 (by omega)
    · cases h
  unfold generate_comic_content_with_ai
  rw [hnode]
  rcases geminiLoop_all_fail env input [0, 1, 2] hgem3 with hg | hg <;> rw [hg]
  simp only
  exact tuziLoop_all_fail env input [0, 1, 2] (by
    intro a ha
    simp only [List.mem_cons, List.mem_singleton, List.not_mem_nil] at ha
    rcases ha with rfl | rfl | rfl | h
    · exact htuzi 0 (by omega)
    · exact htuzi 1 (by omega)
    · exact htuzi 2 (by omega)
    · cases h)

/-- Witness for `all_providers_exhausted_returns_original`. -/
theorem all_providers_exhausted_returns_original_witness :
    (generate_comic_content_with_ai envC7 "直播弹幕原文").1 = ("直播弹幕原文", false) :=
  all_providers_exhausted_returns_original envC7 "直播弹幕原文" (by decide)
    (fun a _ => trivial) (fun a _ => trivial)

/-- Claim C4 counterexample: with an empty first Gemini response and a
tuZi backup that would answer `"Panel 1: A laughs"`, the generator
returns the raw input with `wasGenerated = false` after the single Gemini
call — the trace is exactly `[gemini 0]`, so the secondary provider is
never attempted, contradicting the claim that it still would be. -/
theorem empty_gemini_skips_secondary_counterexample :
    generate_comic_content_with_ai envC4 "原始内容"
      = (("原始内容", false), [Ev.gemini 0]) := by
  decide

/-- Claim C4 (amended): an empty (transport-successful, no-text) response
from the Gemini attempt reached after `i` failed attempts makes
`generate_comic_content_with_ai` return the raw input with
`wasGenerated = false` immediately — no exception propagates, but the
tuZi secondary provider is not attempted. -/
theorem gemini_empty_terminates_without_secondary (env : TextEnv) (input : String)
    (i : Nat)
    (hnode : (nodeStage env).1 = none)
    (himp : env.geminiImportOk = true)
    (hkey : env.geminiKeyConfigured = true)
    (hi : i < 3)
    (hprev : ∀ j, j < i → env.gemini j = .error)
    (hempty : env.gemini i = .empty) :
    (generate_comic_content_with_ai env input).1 = (input, false) ∧
    ∀ e ∈ (generate_comic_content_with_ai env input).2, ∀ a, e ≠ Ev.tuziText a := by
  have hloop : (geminiLoop env input [0, 1, 2]).1 = some (input, false) := by
    interval_cases i
    · simp [geminiLoop, himp, hkey, hempty]
    · have h0 := hprev 0 (by omega)
      simp [geminiLoop, himp, hkey, h0, hempty]
    · have h0 := hprev 0 (by omega)
      have h1 := hprev 1 (by omega)
      simp [geminiLoop, himp, hkey, h0, h1, hempty]
  constructor
  · unfold generate_comic_content_with_ai
    rw [hnode, hloop]
  · unfold generate_comic_content_with_ai
    rw [hnode, hloop]
    simp only
    intro e he a
    rcases List.mem_append.mp he with he | he
    · rw [nodeStage_trace env e he]
      simp
    · obtain ⟨b, hb⟩ := geminiLoop_trace env input [0, 1, 2] e he
      rw [hb]
      simp

/-- Witness for `gemini_empty_terminates_without_secondary`. -/
theorem gemini_empty_terminates_without_secondary_witness :
    (generate_comic_content_with_ai envC4 "原文").1 = ("原文", false) :=
  (gemini_empty_terminates_without_secondary envC4 "原文" 0 (by decide) (by decide)
    (by decide) (by omega) (fun j hj => absurd hj (by omega)) (by decide)).1

/-- Claim C9: if the first two polls are in progress and the third
reports status `"failed"` with reason `r`, the poll loop terminates with
the failed outcome carrying `r` after exactly three poll requests (and
no downloads), provided the deadline admits at least three polls. -/
theorem poller_failed_is_terminal (env : ImgEnv) (tmp : String) (fuel : Nat)
    (urls : Option (List String)) (gens : List PollGen) (r : String)
    (hfuel : 3 ≤ fuel)
    (h0 : pollInProgress (env.poll 0))
    (h1 : pollInProgress (env.poll 1))
    (h2 : env.poll 2 = PollResp.json (some "failed") urls gens (some r)) :
    pollLoop env tmp 0 fuel = (AsyncOut.failed r, [Ev.poll, Ev.poll, Ev.poll]) := by
  obtain ⟨f, rfl⟩ : ∃ f, fuel = f + 3 := ⟨fuel - 3, by omega⟩
  obtain ⟨s0, u0, g0, r0, he0, hc0, hf0⟩ := h0
  obtain ⟨s1, u1, g1, r1, he1, hc1, hf1⟩ := h1
  have step0 : pollLoop env tmp 0 (f + 3)
      = ((pollLoop env tmp 1 (f + 2)).1, Ev.poll :: (pollLoop env tmp 1 (f + 2)).2) := by
    simp [pollLoop, he0, hc0, hf0]
  have step1 : pollLoop env tmp 1 (f + 2)
      = ((pollLoop env tmp 2 (f + 1)).1, Ev.poll :: (pollLoop env tmp 2 (f + 1)).2) := by
    simp [pollLoop, he1, hc1, hf1]
  have step2 : pollLoop env tmp 2 (f + 1) = (AsyncOut.failed r, [Ev.poll]) := by
    simp [pollLoop, h2]
  rw [step0, step1, step2]

/-- Witness for `poller_failed_is_terminal`. -/
theorem poller_failed_is_terminal_witness :
    pollLoop envC9 "/tmp/comic_tuzi_async_0.png" 0 100
      = (AsyncOut.failed "quota exceeded", [Ev.poll, Ev.poll, Ev.poll]) :=
  poller_failed_is_terminal envC9 "/tmp/comic_tuzi_async_0.png" 100 none []
    "quota exceeded" (by omega)
    ⟨"processing", none, [], none, by decide, by decide, by decide⟩
    ⟨"processing", none, [], none, by decide, by decide, by decide⟩
    (by decide)

/-- Claim C3 counterexample: the response content contains the async
marker and the poll loop fails, yet the attempt still performs bare-URL
extraction on the same first response body, downloads the URL and
returns that artifact — its result is not determined by the poller's
outcome alone. -/
theorem async_failure_not_sole_outcome_counterexample :
    call_tuzi_chat_completions_for_image envC3 "gpt-image-1.5" 0
      = (some "/tmp/comic_tuzi_x.png",
          [Ev.imgReq "gpt-image-1.5", Ev.poll, Ev.download "https://h/img.png"], 1) := by
  decide

/-- Claim C3 (amended): when the first response's content carries the
async marker and the poll loop succeeds with artifact `f`, the attempt
returns exactly `f` and performs no further extraction: the trace is the
request event followed by the poll loop's own events.  (When the poll
loop fails or times out, the cascade goes on to bare-URL/base64
extraction on the same body — see the counterexample.) -/
theorem async_poll_success_is_sole_outcome (env : ImgEnv) (m content : String)
    (tcs : List (Option String)) (rest : List String) (n : Nat)
    (taskUrl f : String)
    (hresp : env.resp n = ImgResp.ok content tcs)
    (hmark : findAsyncTaskUrl content = some taskUrl)
    (hpoll : (pollLoop env (env.tempName n) 0 env.pollBudget).1 = AsyncOut.success f) :
    (tuziImageModelLoop env (m :: rest) n).1 = some f ∧
    (tuziImageModelLoop env (m :: rest) n).2.1
      = Ev.imgReq m :: (pollLoop env (env.tempName n) 0 env.pollBudget).2 := by
  have hc : content ≠ "" := by
    intro he
    rw [he] at hmark
    cases hmark
  have hasync : asyncStage env (env.tempName n) content
      = (some f, (pollLoop env (env.tempName n) 0 env.pollBudget).2) := by
    unfold asyncStage
    rw [if_pos hc, hmark]
    simp only
    rw [hpoll]
  have hparse : parseImageResponse env (env.tempName n) content tcs
      = (some f, (pollLoop env (env.tempName n) 0 env.pollBudget).2) := by
    unfold parseImageResponse
    rw [hasync]
  constructor <;> simp [tuziImageModelLoop, hresp, hparse]

/-- Witness for `async_poll_success_is_sole_outcome`. -/
theorem async_poll_success_is_sole_outcome_witness :
    (tuziImageModelLoop envC3b ["gpt-image-1.5"] 0).1 = some "/tmp/comic_tuzi_ok.png" ∧
    (tuziImageModelLoop envC3b ["gpt-image-1.5"] 0).2.1
      = Ev.imgReq "gpt-image-1.5"
          :: (pollLoop envC3b (envC3b.tempName 0) 0 envC3b.pollBudget).2 :=
  async_poll_success_is_sole_outcome envC3b "gpt-image-1.5"
    "[原始数据](https://h/source/t2)" [] [] 0 "https://h/source/t2"
    "/tmp/comic_tuzi_ok.png" (by decide) (by decide) (by decide)

/-- Claim C5 counterexample: with the default configured model and every
request failing, one `call_tuzi_image_api` call sends the model
identifier `gpt-image-1.5` four times (twelve requests in total), not at
most once — the outer rotation re-enters the full inner rotation of
`call_tuzi_chat_completions_for_image` for each of its four
(non-deduplicated) outer entries. -/
theorem tuzi_model_sent_once_counterexample :
    (call_tuzi_image_api envC5 true (some "gpt-image-1.5")).1 = none ∧
    ((call_tuzi_image_api envC5 true (some "gpt-image-1.5")).2.count
        (Ev.imgReq "gpt-image-1.5")) = 4 ∧
    ((call_tuzi_image_api envC5 true (some "gpt-image-1.5")).2.length) = 12 := by
  decide

/-- When every request fails, the inner model loop requests each of its
models once, in order. -/
theorem tuziImageModelLoop_all_fail (env : ImgEnv)
    (hfail : ∀ k, imgRespFails env k) :
    ∀ l n, tuziImageModelLoop env l n = (none, l.map Ev.imgReq, n + l.length) := by
  intro l
  induction l with
  | nil => intro n; simp [tuziImageModelLoop]
  | cons m rest ih =>
    intro n
    have hf := hfail n
    rcases hr : env.resp n with _ | c | ⟨ct, tc⟩ <;>
      rw [imgRespFails, hr] at hf
    · simp only [tuziImageModelLoop, hr, ih (n + 1), List.map_cons, List.length_cons,
        Prod.mk.injEq]
      exact ⟨trivial, trivial, by omega⟩
    · simp only [tuziImageModelLoop, hr, ih (n + 1), List.map_cons, List.length_cons,
        Prod.mk.injEq]
      exact ⟨trivial, trivial, by omega⟩
    · exact absurd hf (by simp)

/-- Claim C5 (amended): `call_tuzi_image_api` iterates over the fixed,
non-deduplicated outer list (configured model, then the three hardcoded
entries) and each outer attempt re-runs the full inner rotation of
`call_tuzi_chat_completions_for_image` (its model followed by the
deduplicated hardcoded fallbacks, one request each); so when every
request fails, the request trace is the concatenation of the four inner
rotations and a distinct model identifier is sent up to four times per
call. -/
theorem tuzi_model_rotation_structure (env : ImgEnv) (cfgModel : String)
    (hfail : ∀ k, imgRespFails env k) :
    (call_tuzi_image_api env true (some cfgModel)).1 = none ∧
    (call_tuzi_image_api env true (some cfgModel)).2
      = (tuziImageModels cfgModel).flatMap (fun m => (modelsToTry m).map Ev.imgReq) := by
  have houter : ∀ ls n, call_tuzi_image_api_loop env ls n
      = (none, ls.flatMap (fun m => (modelsToTry m).map Ev.imgReq),
          n + (ls.map (fun m => (modelsToTry m).length)).sum) := by
    intro ls
    induction ls with
    | nil => intro n; simp [call_tuzi_image_api_loop]
    | cons m rest ih =>
      intro n
      simp only [call_tuzi_image_api_loop, call_tuzi_chat_completions_for_image,
        tuziImageModelLoop_all_fail env hfail, ih, List.flatMap_cons, List.map_cons,
        List.sum_cons, Prod.mk.injEq]
      exact ⟨trivial, trivial, by omega⟩
  simp only [call_tuzi_image_api, Option.getD, houter]
  exact ⟨rfl, rfl⟩

/-- Witness for `tuzi_model_rotation_structure`. -/
theorem tuzi_model_rotation_structure_witness :
    (call_tuzi_image_api envC5 true (some "my-model")).1 = none ∧
    (call_tuzi_image_api envC5 true (some "my-model")).2
      = (tuziImageModels "my-model").flatMap (fun m => (modelsToTry m).map Ev.imgReq) :=
  tuzi_model_rotation_structure envC5 "my-model" (fun _ => trivial)

/-- Claim C2: for a room whose configured reference image does not exist
on disk while a valid cover image exists, the source code returns the
globally configured default reference image, not the cover: the
`room_has_config` guard (set by mere configuration, not existence)
blocks the cover fallback.  This contradicts the resolver's own
docstring (lines 168-170: the default is used only when even the cover
is unavailable) and the dead `if not room_has_config` branch under the
comment "configured but the file does not exist" (line 200). -/
theorem reference_resolver_prefers_default_over_cover :
    get_room_reference_image cfgC2 fsC2 "123" (some "/rec/123_20240101_AI_HIGHLIGHT.txt")
      = some "/proj/imgs/default.png" ∧
    get_live_cover_image fsC2 "/rec/123_20240101_AI_HIGHLIGHT.txt"
      = some "/rec/123_20240101.cover.jpg" := by
  decide

/-! ### Trace classification lemmas -/

/-- Text-provider events are not image-side events and vice versa. -/
theorem ev_text_not_image (e : Ev) (h : e.isTextProvider = true) :
    e.isImageGen = false := by
  cases e <;> first | rfl | cases h

/-- The whole text cascade emits only text-provider events. -/
theorem generate_comic_content_with_ai_trace (env : TextEnv) (input : String) :
    ∀ e ∈ (generate_comic_content_with_ai env input).2, e.isTextProvider = true := by
  intro e he
  unfold generate_comic_content_with_ai at he
  rcases hn : (nodeStage env).1 with _ | r <;> rw [hn] at he
  · rcases hg : (geminiLoop env input [0, 1, 2]).1 with _ | r2 <;> rw [hg] at he
    · simp only at he
      rcases List.mem_append.mp he with he | he
      · rcases List.mem_append.mp he with he | he
        · rw [nodeStage_trace env e he]; rfl
        · obtain ⟨a, rfl⟩ := geminiLoop_trace env input [0, 1, 2] e he; rfl
      · obtain ⟨a, rfl⟩ := tuziLoop_trace env input [0, 1, 2] e he; rfl
    · simp only at he
      rcases List.mem_append.mp he with he | he
      · rw [nodeStage_trace env e he]; rfl
      · obtain ⟨a, rfl⟩ := geminiLoop_trace env input [0, 1, 2] e he; rfl
  · simp only at he
    rw [nodeStage_trace env e he]; rfl

/-- The async poll loop emits only polls and downloads. -/
theorem pollLoop_trace_img (env : ImgEnv) (tmp : String) :
    ∀ fuel i, ∀ e ∈ (pollLoop env tmp i fuel).2, e.isTextProvider = false := by
  intro fuel
  induction fuel with
  | zero => intro i e he; cases he
  | succ f ih =>
    intro i e he
    rcases hp : env.poll i with _ | c | _ | ⟨st, us, gs, fr⟩ <;>
      simp only [pollLoop, hp] at he <;>
      first
        | (rcases List.mem_cons.mp he with rfl | he
           · rfl
           · exact ih (i + 1) e he)
        | skip
    split_ifs at he with h1 h2
    · rcases hu : (urlsFromTask us gs).head? with _ | u <;> rw [hu] at he <;>
        simp only at he
      · rcases List.mem_singleton.mp he with rfl
        rfl
      · rcases hd : env.download u with _ | c <;> rw [hd] at he <;> simp only at he
        · rcases List.mem_cons.mp he with rfl | he
          · rfl
          · rcases List.mem_cons.mp he with rfl | he
            · rfl
            · exact ih (i + 1) e he
        · split_ifs at he <;>
            (rcases List.mem_cons.mp he with rfl | he
             · rfl
             · rcases List.mem_singleton.mp he with rfl
               rfl)
    · rcases List.mem_singleton.mp he with rfl
      rfl
    · rcases List.mem_cons.mp he with rfl | he
      · rfl
      · exact ih (i + 1) e he

/-- The tool-call fallback emits only downloads. -/
theorem toolCallsLoop_trace_img (env : ImgEnv) (tmp : String) :
    ∀ l, ∀ e ∈ (toolCallsLoop env tmp l).2, e.isTextProvider = false := by
  intro l
  induction l with
  | nil => intro e he; cases he
  | cons tc rest ih =>
    intro e he
    rcases tc with _ | u
    · exact ih e he
    · simp only [toolCallsLoop] at he
      rcases hd : env.download u with _ | c <;> rw [hd] at he <;> simp only at he
      · rcases List.mem_cons.mp he with rfl | he
        · rfl
        · exact ih e he
      · split_ifs at he
        · rcases List.mem_singleton.mp he with rfl
          rfl
        · rcases List.mem_cons.mp he with rfl | he
          · rfl
          · exact ih e he

/-- The async stage emits only image-side events. -/
theorem asyncStage_trace_img (env : ImgEnv) (tmp content : String) :
    ∀ e ∈ (asyncStage env tmp content).2, e.isTextProvider = false := by
  intro e he
  unfold asyncStage at he
  split_ifs at he
  · rcases ha : findAsyncTaskUrl content with _ | u <;> rw [ha] at he
    · cases he
    · simp only at he
      rcases hpl : (pollLoop env tmp 0 env.pollBudget).1 <;> rw [hpl] at he <;>
        exact pollLoop_trace_img env tmp env.pollBudget 0 e he
  · cases he

/-- The URL stage emits only image-side events. -/
theorem urlStage_trace_img (env : ImgEnv) (tmp content : String) :
    ∀ e ∈ (urlStage env tmp content).2, e.isTextProvider = false := by
  intro e he
  unfold urlStage at he
  split_ifs at he
  · rcases hu : findImageUrl content with _ | u <;> rw [hu] at he <;> simp only at he
    · cases he
    · unfold tryDownloadToTemp at he
      rcases hd : env.download u with _ | c <;> rw [hd] at he <;> simp only at he
      · rcases List.mem_singleton.mp he with rfl
        rfl
      · split_ifs at he <;>
          (rcases List.mem_singleton.mp he with rfl
           rfl)
  · cases he

/-- The response cascade of one attempt emits only image-side events. -/
theorem parseImageResponse_trace_img (env : ImgEnv) (tmp content : String)
    (tcs : List (Option String)) :
    ∀ e ∈ (parseImageResponse env tmp content tcs).2, e.isTextProvider = false := by
  intro e he
  unfold parseImageResponse at he
  rcases h1 : (asyncStage env tmp content).1 with _ | f <;> rw [h1] at he
  · rcases h2 : (urlStage env tmp content).1 with _ | f <;> rw [h2] at he
    · rcases h3 : b64Stage tmp content with _ | f <;> rw [h3] at he
      · simp only at he
        rcases List.mem_append.mp he with he | he
        · rcases List.mem_append.mp he with he | he
          · exact asyncStage_trace_img env tmp content e he
          · exact urlStage_trace_img env tmp content e he
        · exact toolCallsLoop_trace_img env tmp tcs e he
      · simp only at he
        rcases List.mem_append.mp he with he | he
        · exact asyncStage_trace_img env tmp content e he
        · exact urlStage_trace_img env tmp content e he
    · simp only at he
      rcases List.mem_append.mp he with he | he
      · exact asyncStage_trace_img env tmp content e he
      · exact urlStage_trace_img env tmp content e he
  · simp only at he
    exact asyncStage_trace_img env tmp content e he

/-- The per-model attempt loop emits only image-side events. -/
theorem tuziImageModelLoop_trace_img (env : ImgEnv) :
    ∀ l n, ∀ e ∈ (tuziImageModelLoop env l n).2.1, e.isTextProvider = false := by
  intro l
  induction l with
  | nil => intro n e he; cases he
  | cons m rest ih =>
    intro n e he
    rcases hr : env.resp n with _ | c | ⟨ct, tc⟩ <;>
      simp only [tuziImageModelLoop, hr] at he
    · rcases List.mem_cons.mp he with rfl | he
      · rfl
      · exact ih (n + 1) e he
    · rcases List.mem_cons.mp he with rfl | he
      · rfl
      · exact ih (n + 1) e he
    · rcases hp : (parseImageResponse env (env.tempName n) ct tc).1 with _ | f <;>
        rw [hp] at he
      · rcases List.mem_cons.mp he with rfl | he
        · rfl
        · rcases List.mem_append.mp he with he | he
          · exact parseImageResponse_trace_img env (env.tempName n) ct tc e he
          · exact ih (n + 1) e he
      · rcases List.mem_cons.mp he with rfl | he
        · rfl
        · exact parseImageResponse_trace_img env (env.tempName n) ct tc e he

/-- The whole tuZi image call emits only image-side events. -/
theorem call_tuzi_image_api_trace_img (env : ImgEnv) (tc : Bool) (cm : Option String) :
    ∀ e ∈ (call_tuzi_image_api env tc cm).2, e.isTextProvider = false := by
  have houter : ∀ ls n, ∀ e ∈ (call_tuzi_image_api_loop env ls n).2.1,
      e.isTextProvider = false := by
    intro ls
    induction ls with
    | nil => intro n e he; cases he
    | cons m rest ih =>
      intro n e he
      simp only [call_tuzi_image_api_loop, call_tuzi_chat_completions_for_image] at he
      rcases hr : (tuziImageModelLoop env (modelsToTry m) n).1 with _ | f <;> rw [hr] at he
      · simp only at he
        rcases List.mem_append.mp he with he | he
        · exact tuziImageModelLoop_trace_img env (modelsToTry m) n e
            (by rw [hr] at *; exact he)
        · exact ih _ e he
      · simp only at he
        exact tuziImageModelLoop_trace_img env (modelsToTry m) n e he
  intro e he
  unfold call_tuzi_image_api at he
  split_ifs at he <;>
    first
      | exact absurd he (List.not_mem_nil e)
      | exact houter (tuziImageModels (cm.getD "gpt-image-1.5")) 0 e he

/-- The image stage of the pipeline emits only image-side events. -/
theorem imageStage_trace_img (cfg : Config) (ienv : ImgEnv) :
    ∀ e ∈ (imageStage cfg ienv).2, e.isTextProvider = false := by
  intro e he
  simp only [imageStage, call_google_image_api, is_googleimage_configured,
    Bool.false_eq_true, if_false, ite_self, List.nil_append] at he
  split_ifs at he <;>
    first
      | exact absurd he (List.not_mem_nil e)
      | exact call_tuzi_image_api_trace_img ienv cfg.tuziApiConfigured cfg.tuziModel e he

/-! ### Claims C1 and C6 -/

/-- A non-blank existing script is reused as the comic content with
`is_generated = true` and no provider call. -/
theorem build_comic_prompt_cached (cfg : Config) (tenv : TextEnv)
    (content : String) (ref : Option String) (rid : Option String) (s : String)
    (hs2 : pyStrip s ≠ "") :
    (build_comic_prompt cfg tenv content ref rid (some s)).1.2.1 = s ∧
    (build_comic_prompt cfg tenv content ref rid (some s)).1.2.2 = true ∧
    (build_comic_prompt cfg tenv content ref rid (some s)).2 = [] := by
  have hs : s ≠ "" := by
    intro he
    apply hs2
    rw [he]
    rfl
  refine ⟨?_, ?_, ?_⟩ <;> simp [build_comic_prompt, hs, hs2]

/-- With no (or a blank) existing script, `build_comic_prompt` takes its
content, flag and provider events from the text generator. -/
theorem build_comic_prompt_generated_flag (cfg : Config) (tenv : TextEnv)
    (content : String) (ref : Option String) (rid : Option String)
    (ec : Option String)
    (hec : ec = none ∨ ∃ s, ec = some s ∧ (s = "" ∨ pyStrip s = "")) :
    (build_comic_prompt cfg tenv content ref rid ec).1.2.1
        = (generate_comic_content_with_ai tenv content).1.1 ∧
    (build_comic_prompt cfg tenv content ref rid ec).1.2.2
        = (generate_comic_content_with_ai tenv content).1.2 ∧
    (build_comic_prompt cfg tenv content ref rid ec).2
        = (generate_comic_content_with_ai tenv content).2 := by
  rcases hec with rfl | ⟨s, rfl, hs⟩
  · exact ⟨rfl, rfl, rfl⟩
  · have hcond : ¬(s ≠ "" ∧ pyStrip s ≠ "") := by
      rcases hs with rfl | hs
      · exact fun hc => hc.1 rfl
      · exact fun hc => hc.2 hs
    refine ⟨?_, ?_, ?_⟩ <;> simp [build_comic_prompt, hcond]

/-- Claim C1: when the script cache does not short-circuit (absent or
blank) and the text generator returns `wasGenerated = false`,
`generate_comic_from_highlight` returns no artifact and performs no
image-generation call at all: its trace holds no Google call, no tuZi
image request, no poll and no download. -/
theorem ungenerated_script_blocks_image_generation (cfg : Config) (fs : FS)
    (tenv : TextEnv) (ienv : ImgEnv) (hp : String) (rid : Option String)
    (hcache : fsExists fs (comicScriptPath hp) = false ∨
      fsRead fs (comicScriptPath hp) = "" ∨
      pyStrip (fsRead fs (comicScriptPath hp)) = "")
    (hgen : (generate_comic_content_with_ai tenv (fsRead fs hp)).1.2 = false) :
    (generate_comic_from_highlight cfg fs tenv ienv hp rid).1 = none ∧
    ∀ e ∈ (generate_comic_from_highlight cfg fs tenv ienv hp rid).2,
      e.isImageGen = false := by
  simp only [generate_comic_from_highlight]
  by_cases h1 : fsExists fs hp = true
  · rw [if_neg (by simp [h1])]
    by_cases h2 : roomComicEnabled cfg (resolveRoomId hp rid) = false
    · rw [if_pos h2]
      exact ⟨rfl, fun e he => absurd he (List.not_mem_nil e)⟩
    · rw [if_neg h2]
      have hctprop : (if fsExists fs (comicScriptPath hp) then
            some (fsRead fs (comicScriptPath hp)) else none) = none ∨
          ∃ s, (if fsExists fs (comicScriptPath hp) then
            some (fsRead fs (comicScriptPath hp)) else none) = some s ∧
            (s = "" ∨ pyStrip s = "") := by
        by_cases hc : fsExists fs (comicScriptPath hp) = true
        · rw [if_pos hc]
          right
          refine ⟨_, rfl, ?_⟩
          rcases hcache with h | h | h
          · rw [h] at hc
            cases hc
          · exact Or.inl h
          · exact Or.inr h
        · rw [if_neg hc]
          exact Or.inl rfl
      obtain ⟨hb1, hb2, hb3⟩ := build_comic_prompt_generated_flag cfg tenv
        (fsRead fs hp) (get_room_reference_image cfg fs (resolveRoomId hp rid) (some hp))
        (some (resolveRoomId hp rid)) _ hctprop
      rw [if_pos (hb2.trans hgen)]
      refine ⟨rfl, ?_⟩
      intro e he
      rw [hb3] at he
      exact ev_text_not_image e (generate_comic_content_with_ai_trace tenv (fsRead fs hp) e he)
  · rw [if_pos (by simp [h1])]
    exact ⟨rfl, fun e he => absurd he (List.not_mem_nil e)⟩

/-- Witness for `ungenerated_script_blocks_image_generation`. -/
theorem ungenerated_script_blocks_image_generation_witness :
    (generate_comic_from_highlight cfgC1 fsC1 envC1text envC1img
      "/rec/55_x_AI_HIGHLIGHT.txt" none).1 = none :=
  (ungenerated_script_blocks_image_generation cfgC1 fsC1 envC1text envC1img
    "/rec/55_x_AI_HIGHLIGHT.txt" none (Or.inl (by decide)) (by decide)).1

/-- Claim C6: when the derived script-cache file exists with non-blank
content, running `generate_comic_from_highlight` again issues no text
provider call at all — no node subprocess, no Gemini call, no tuZi text
call appears in its trace — and the prompt builder reuses the cached
script with a `generated = true` outcome before anything else can run:
the cache short-circuit precedes the retry state machine. -/
theorem cached_script_short_circuits (cfg : Config) (fs : FS)
    (tenv : TextEnv) (ienv : ImgEnv) (hp : String) (rid : Option String)
    (hhl : fsExists fs hp = true)
    (hcache : fsExists fs (comicScriptPath hp) = true)
    (hnb : pyStrip (fsRead fs (comicScriptPath hp)) ≠ "") :
    (∀ e ∈ (generate_comic_from_highlight cfg fs tenv ienv hp rid).2,
      e.isTextProvider = false) ∧
    (build_comic_prompt cfg tenv (fsRead fs hp)
        (get_room_reference_image cfg fs (resolveRoomId hp rid) (some hp))
        (some (resolveRoomId hp rid))
        (some (fsRead fs (comicScriptPath hp)))).1.2.1
      = fsRead fs (comicScriptPath hp) ∧
    (build_comic_prompt cfg tenv (fsRead fs hp)
        (get_room_reference_image cfg fs (resolveRoomId hp rid) (some hp))
        (some (resolveRoomId hp rid))
        (some (fsRead fs (comicScriptPath hp)))).1.2.2 = true := by
  obtain ⟨hc1, hc2, hc3⟩ := build_comic_prompt_cached cfg tenv (fsRead fs hp)
    (get_room_reference_image cfg fs (resolveRoomId hp rid) (some hp))
    (some (resolveRoomId hp rid)) (fsRead fs (comicScriptPath hp)) hnb
  refine ⟨?_, hc1, hc2⟩
  simp only [generate_comic_from_highlight]
  rw [if_neg (by simp [hhl]), if_pos hcache]
  by_cases h2 : roomComicEnabled cfg (resolveRoomId hp rid) = false
  · rw [if_pos h2]
    exact fun e he => absurd he (List.not_mem_nil e)
  · rw [if_neg h2, if_neg (by rw [hc2]; simp)]
    intro e he
    have hmem : e ∈ (build_comic_prompt cfg tenv (fsRead fs hp)
        (get_room_reference_image cfg fs (resolveRoomId hp rid) (some hp))
        (some (resolveRoomId hp rid))
        (some (fsRead fs (comicScriptPath hp)))).2 ++ (imageStage cfg ienv).2 := by
      rcases himg : (imageStage cfg ienv).1 with _ | f <;> rw [himg] at he <;> exact he
    rw [hc3, List.nil_append] at hmem
    exact imageStage_trace_img cfg ienv e hmem

/-- Witness for `cached_script_short_circuits`. -/
theorem cached_script_short_circuits_witness :
    (∀ e ∈ (generate_comic_from_highlight cfgC6 fsC6 envC6text envC6img
        "/rec/77_y_AI_HIGHLIGHT.txt" none).2, e.isTextProvider = false) ∧
    (build_comic_prompt cfgC6 envC6text (fsRead fsC6 "/rec/77_y_AI_HIGHLIGHT.txt")
        (get_room_reference_image cfgC6 fsC6
          (resolveRoomId "/rec/77_y_AI_HIGHLIGHT.txt" none)
          (some "/rec/77_y_AI_HIGHLIGHT.txt"))
        (some (resolveRoomId "/rec/77_y_AI_HIGHLIGHT.txt" none))
        (some (fsRead fsC6 (comicScriptPath "/rec/77_y_AI_HIGHLIGHT.txt")))).1.2.2
      = true :=
  ⟨(cached_script_short_circuits cfgC6 fsC6 envC6text envC6img
      "/rec/77_y_AI_HIGHLIGHT.txt" none (by decide) (by decide) (by decide)).1,
   (cached_script_short_circuits cfgC6 fsC6 envC6text envC6img
      "/rec/77_y_AI_HIGHLIGHT.txt" none (by decide) (by decide) (by decide)).2.2⟩
